import Mathlib

/-!
Shallow embedding of the EdgeTier ROI model estimation engines.

The repository contains three near-duplicate estimation engines, all pure
arithmetic over JavaScript numbers:

* `Banded` — the 7-step banded wizard (first component of the first source
  file): every input is an enum band, a 1-5 complexity slider or a boolean
  priority toggle.
* `DirectNumeric` — the 3-step calculator (second component of the first
  source file): direct numeric inputs, fixed improvement assumptions gated
  by boolean toggles.
* `Richer` — the 6-step wizard (second source file): adds region cost
  benchmarks, a revenue impact type, rollout scope and an investment mode.

JavaScript numbers are modelled as rationals.  The JavaScript expression
x || 0 (which maps 0 and NaN to 0 and is otherwise the identity on
numbers) is modelled by `jsOrZero`; over rationals there is no NaN, so it
is provably the identity.  The outcome of parseFloat at the input boundary
is modelled as an optional rational, with `none` standing for NaN.  To
state freedom from division-by-zero artifacts, `jsDiv` is a division that
reports a division by zero as `none`; a pipeline written with `jsDiv`
returns `none` exactly when some division by zero was actually reached.
-/

/-- Model of the JavaScript idiom x || 0 on finite numbers: 0 stays 0,
any other number is kept.  (On NaN it would give 0; rationals have no NaN.) -/
def jsOrZero (x : ℚ) : ℚ := if x = 0 then 0 else x

/-- Division that records a division by zero as `none` instead of the
junk value a float division would produce. -/
def jsDiv (x y : ℚ) : Option ℚ := if y = 0 then none else some (x / y)

/-- Constant shared by all three engines: WORKING_HOURS_PER_YEAR = 1760. -/
def WORKING_HOURS_PER_YEAR : ℚ := 1760

/-- Complexity slider positions 1-5 (type ComplexityLevel in the source;
the COMPLEXITY_LEVELS table is identical in both source files). -/
inductive ComplexityLevel
  | l1 | l2 | l3 | l4 | l5
deriving DecidableEq

/-- Numeric position of a complexity level (the 1-5 slider value). -/
def levelIdx : ComplexityLevel → Nat
  | .l1 => 1
  | .l2 => 2
  | .l3 => 3
  | .l4 => 4
  | .l5 => 5

/-- ahtMins column of the COMPLEXITY_LEVELS table: 3.5, 5, 7, 10, 14. -/
def ahtMinsOf : ComplexityLevel → ℚ
  | .l1 => 7/2
  | .l2 => 5
  | .l3 => 7
  | .l4 => 10
  | .l5 => 14

/-- One row of an AI_IMPROVEMENTS table. -/
structure Improvements where
  ahtReductionPct : ℚ
  qaEfficiencyGainPct : ℚ
  contactDeflectionPct : ℚ

/-- Revenue band enum, identical in the Banded and Richer variants. -/
inductive RevenueBand
  | unknown | lt50 | r50to250 | r250to1000 | gt1000
deriving DecidableEq

/-- The approxRevenue switch used inside the revenue gate of the Banded and
Richer variants; the let-binding starts at 0 and the switch has no case for
the unknown band, so unknown maps to 0. -/
def approxRevenue : RevenueBand → ℚ
  | .unknown => 0
  | .lt50 => 25000000
  | .r50to250 => 150000000
  | .r250to1000 => 500000000
  | .gt1000 => 1500000000

/-- The payback computation shared verbatim by all three variants, with
each division site made explicit through `jsDiv`:
monthlyBenefit = totalAnnualBenefit > 0 ? totalAnnualBenefit / 12 : 0 and
paybackMonths = monthlyBenefit > 0 ? cost / monthlyBenefit : 0. -/
def paybackMonthsChecked (cost tab : ℚ) : Option ℚ :=
  (if 0 < tab then jsDiv tab 12 else some 0).bind
    (fun mb => if 0 < mb then jsDiv cost mb else some 0)

/-- The numeric input boundary.  Both numeric change handlers in the source
(the shared NumberInput component of the first file and the custom
EdgeTier cost field of the second file) compute
parseFloat(event.target.value) || 0.  The parseFloat outcome on the
entered string is modelled as an optional rational, `none` standing for
NaN (empty or non-numeric input); || 0 maps NaN and 0 to 0 and keeps any
other parsed number. -/
def numberInputOnChange (parsed : Option ℚ) : ℚ :=
  match parsed with
  | none => 0
  | some v => if v = 0 then 0 else v

/-- The investment tier selection exactly as the claim C5 words it:
ordered breakpoints over numAgents with five configurable tier values. -/
def specTierLookup (t1 t2 t3 t4 t5 n : ℚ) : ℚ :=
  if n ≤ 25 then t1
  else if n ≤ 50 then t2
  else if n ≤ 100 then t3
  else if n ≤ 250 then t4
  else t5

namespace Banded

/-- Team size bands of the 7-step wizard. -/
inductive TeamSizeBand
  | b1to10 | b11to25 | b26to50 | b51to100 | b101to250 | b250plus
deriving DecidableEq

/-- TEAM_SIZE_MAP; the source falls back to the 26-50 entry for an
unrecognized key, but the key type is the closed band enum, so the lookup
is total. -/
def TEAM_SIZE_MAP : TeamSizeBand → ℚ
  | .b1to10 => 8
  | .b11to25 => 20
  | .b26to50 => 40
  | .b51to100 => 80
  | .b101to250 => 150
  | .b250plus => 300

/-- Daily contact volume bands. -/
inductive ContactVolumeBand
  | c10to20 | c20to30 | c30to40 | c40to60 | c60plus
deriving DecidableEq

/-- CONTACTS_PER_AGENT_MAP (fallback entry 30-40 is dead code over the
closed enum). -/
def CONTACTS_PER_AGENT_MAP : ContactVolumeBand → ℚ
  | .c10to20 => 15
  | .c20to30 => 25
  | .c30to40 => 35
  | .c40to60 => 50
  | .c60plus => 70

/-- AI automation levels of the banded variant. -/
inductive AiLevel
  | low | medium | high
deriving DecidableEq

/-- AI_IMPROVEMENTS table of the banded variant. -/
def AI_IMPROVEMENTS : AiLevel → Improvements
  | .low => ⟨15, 60, 20⟩
  | .medium => ⟨12, 50, 15⟩
  | .high => ⟨8, 35, 10⟩

/-- DEFAULT_COST_PER_AGENT = 45000. -/
def DEFAULT_COST_PER_AGENT : ℚ := 45000

/-- ASSUMPTIONS.qaCoveragePct. -/
def qaCoveragePct : ℚ := 5

/-- ASSUMPTIONS.qaTimePerContactMins. -/
def qaTimePerContactMins : ℚ := 6

/-- ASSUMPTIONS.qaHourlyMultiplier = 1.2. -/
def qaHourlyMultiplier : ℚ := 6/5

/-- The answer record of the banded 7-step wizard: the component state
that the results memo depends on. -/
structure Answers where
  teamSizeBand : TeamSizeBand
  contactVolumeBand : ContactVolumeBand
  complexityLevel : ComplexityLevel
  aiLevel : AiLevel
  priorityAht : Bool
  priorityQa : Bool
  priorityDeflection : Bool
  priorityCx : Bool
  revenueBand : RevenueBand
  includeRevenueImpact : Bool

/-- Replace only the complexity level, keeping every other answer fixed. -/
def setComplexity (a : Answers) (l : ComplexityLevel) : Answers :=
  ⟨a.teamSizeBand, a.contactVolumeBand, l, a.aiLevel, a.priorityAht,
   a.priorityQa, a.priorityDeflection, a.priorityCx, a.revenueBand,
   a.includeRevenueImpact⟩

def numAgents (a : Answers) : ℚ := TEAM_SIZE_MAP a.teamSizeBand

def annualCostPerAgent : ℚ := DEFAULT_COST_PER_AGENT

def contactsPerAgentPerDay (a : Answers) : ℚ :=
  CONTACTS_PER_AGENT_MAP a.contactVolumeBand

def workingDaysPerMonth : ℚ := 21

def contactsPerMonth (a : Answers) : ℚ :=
  numAgents a * contactsPerAgentPerDay a * workingDaysPerMonth

def contactsPerYear (a : Answers) : ℚ := contactsPerMonth a * 12

def ahtMins (a : Answers) : ℚ := ahtMinsOf a.complexityLevel

def costPerAgentHour : ℚ :=
  if 0 < WORKING_HOURS_PER_YEAR then annualCostPerAgent / WORKING_HOURS_PER_YEAR
  else 0

def baselineHandlingHours (a : Answers) : ℚ :=
  contactsPerYear a * (if 0 < ahtMins a then ahtMins a / 60 else 0)

def baselineHandlingCost (a : Answers) : ℚ :=
  baselineHandlingHours a * costPerAgentHour

def costPerContactBaseline (a : Answers) : ℚ :=
  if 0 < contactsPerYear a then baselineHandlingCost a / contactsPerYear a
  else 0

def ahtFactor (a : Answers) : ℚ := if a.priorityAht then 1 else 3/10

def qaFactor (a : Answers) : ℚ := if a.priorityQa then 1 else 0

def deflectionFactor (a : Answers) : ℚ := if a.priorityDeflection then 1 else 0

def ahtReductionPct (a : Answers) : ℚ :=
  (AI_IMPROVEMENTS a.aiLevel).ahtReductionPct * ahtFactor a

def qaEfficiencyGainPct (a : Answers) : ℚ :=
  (AI_IMPROVEMENTS a.aiLevel).qaEfficiencyGainPct * qaFactor a

def contactDeflectionPct (a : Answers) : ℚ :=
  (AI_IMPROVEMENTS a.aiLevel).contactDeflectionPct * deflectionFactor a

/-- Condition of the revenue gate:
includeRevenueImpact && revenueBand !== unknown && priorityCx. -/
def includeRevenue (a : Answers) : Prop :=
  a.includeRevenueImpact = true ∧ a.revenueBand ≠ RevenueBand.unknown ∧
    a.priorityCx = true

instance includeRevenueDecidable (a : Answers) : Decidable (includeRevenue a) := by
  unfold includeRevenue
  infer_instance

/-- annualRevenueInfluenced: 0 unless the gate fires, in which case
approxRevenue * 0.3. -/
def annualRevenueInfluenced (a : Answers) : ℚ :=
  if includeRevenue a then approxRevenue a.revenueBand * (3/10) else 0

/-- revenueProtectionPct: 0 unless the gate fires, in which case 1.0. -/
def revenueProtectionPct (a : Answers) : ℚ :=
  if includeRevenue a then 1 else 0

/-- EdgeTier investment rule of thumb by team size. -/
def edgetierAnnualCost (a : Answers) : ℚ :=
  if numAgents a ≤ 25 then 80000
  else if numAgents a ≤ 50 then 120000
  else if numAgents a ≤ 100 then 180000
  else if numAgents a ≤ 250 then 250000
  else 350000

def newAhtMins (a : Answers) : ℚ :=
  ahtMins a * (1 - jsOrZero (ahtReductionPct a) / 100)

def newHandlingHours (a : Answers) : ℚ :=
  contactsPerYear a * (if 0 < newAhtMins a then newAhtMins a / 60 else 0)

def newHandlingCost (a : Answers) : ℚ := newHandlingHours a * costPerAgentHour

def savingsAht (a : Answers) : ℚ := baselineHandlingCost a - newHandlingCost a

def hoursSavedAht (a : Answers) : ℚ :=
  baselineHandlingHours a - newHandlingHours a

def qaHourlyCost : ℚ := costPerAgentHour * qaHourlyMultiplier

def baselineQaHours (a : Answers) : ℚ :=
  contactsPerYear a * (qaCoveragePct / 100) * (qaTimePerContactMins / 60)

def baselineQaCost (a : Answers) : ℚ := baselineQaHours a * qaHourlyCost

def newQaHours (a : Answers) : ℚ :=
  baselineQaHours a * (1 - jsOrZero (qaEfficiencyGainPct a) / 100)

def newQaCost (a : Answers) : ℚ := newQaHours a * qaHourlyCost

def savingsQa (a : Answers) : ℚ := baselineQaCost a - newQaCost a

def hoursSavedQa (a : Answers) : ℚ := baselineQaHours a - newQaHours a

def contactsAvoidedPerYear (a : Answers) : ℚ :=
  contactsPerYear a * (jsOrZero (contactDeflectionPct a) / 100)

def savingsDeflection (a : Answers) : ℚ :=
  contactsAvoidedPerYear a * costPerContactBaseline a

def revenueProtected (a : Answers) : ℚ :=
  annualRevenueInfluenced a * (jsOrZero (revenueProtectionPct a) / 100)

def totalAnnualBenefit (a : Answers) : ℚ :=
  jsOrZero (savingsAht a) + jsOrZero (savingsQa a) +
    jsOrZero (savingsDeflection a) + jsOrZero (revenueProtected a)

def netGain (a : Answers) : ℚ :=
  totalAnnualBenefit a - jsOrZero (edgetierAnnualCost a)

def roiPct (a : Answers) : ℚ :=
  if 0 < edgetierAnnualCost a then netGain a / edgetierAnnualCost a * 100
  else 0

def totalHoursSaved (a : Answers) : ℚ :=
  jsOrZero (hoursSavedAht a) + jsOrZero (hoursSavedQa a)

def monthlyBenefit (a : Answers) : ℚ :=
  if 0 < totalAnnualBenefit a then totalAnnualBenefit a / 12 else 0

def paybackMonths (a : Answers) : ℚ :=
  if 0 < monthlyBenefit a then edgetierAnnualCost a / monthlyBenefit a else 0

/-- The record returned by the results memo of the banded variant. -/
structure Results where
  numAgents : ℚ
  contactsPerYear : ℚ
  ahtMins : ℚ
  costPerContactBaseline : ℚ
  contactsAvoidedPerYear : ℚ
  savingsAht : ℚ
  savingsQa : ℚ
  savingsDeflection : ℚ
  revenueProtected : ℚ
  totalAnnualBenefit : ℚ
  netGain : ℚ
  roiPct : ℚ
  totalHoursSaved : ℚ
  paybackMonths : ℚ
  edgetierAnnualCost : ℚ

/-- Evaluation of the banded engine on a finalized answer record. -/
def results (a : Answers) : Results :=
  ⟨numAgents a, contactsPerYear a, ahtMins a, costPerContactBaseline a,
   contactsAvoidedPerYear a, savingsAht a, savingsQa a, savingsDeflection a,
   revenueProtected a, totalAnnualBenefit a, netGain a, roiPct a,
   totalHoursSaved a, paybackMonths a, edgetierAnnualCost a⟩

end Banded

namespace DirectNumeric

/-- ASSUMPTIONS of the direct-numeric variant (second component of the
first source file): qaCoveragePct. -/
def qaCoveragePct : ℚ := 5

/-- ASSUMPTIONS.qaTimePerContactMins. -/
def qaTimePerContactMins : ℚ := 6

/-- ASSUMPTIONS.qaHourlyMultiplier = 1.2. -/
def qaHourlyMultiplier : ℚ := 6/5

/-- ASSUMPTIONS.ahtReductionPct, applied if reduce handling time is on. -/
def assumedAhtReductionPct : ℚ := 12

/-- ASSUMPTIONS.qaEfficiencyGainPct, applied if reduce QA workload is on. -/
def assumedQaEfficiencyGainPct : ℚ := 50

/-- ASSUMPTIONS.contactDeflectionPct, applied if reduce contacts is on. -/
def assumedContactDeflectionPct : ℚ := 15

/-- ASSUMPTIONS.revenueProtectionPct, applied if improve CX is on. -/
def assumedRevenueProtectionPct : ℚ := 1

/-- The answer record of the direct-numeric 3-step calculator: the
component state the results memo depends on; all numeric fields arrive
through the lenient NumberInput boundary. -/
structure Answers where
  numAgents : ℚ
  contactsPerMonth : ℚ
  ahtMins : ℚ
  annualCostPerAgent : ℚ
  reduceAht : Bool
  reduceQa : Bool
  reduceContacts : Bool
  improveCx : Bool
  edgetierAnnualCost : ℚ
  annualRevenueInfluenced : ℚ

def contactsPerYear (a : Answers) : ℚ := a.contactsPerMonth * 12

def costPerAgentHour (a : Answers) : ℚ :=
  if 0 < WORKING_HOURS_PER_YEAR then a.annualCostPerAgent / WORKING_HOURS_PER_YEAR
  else 0

def baselineHandlingHours (a : Answers) : ℚ :=
  contactsPerYear a * (if 0 < a.ahtMins then a.ahtMins / 60 else 0)

def baselineHandlingCost (a : Answers) : ℚ :=
  baselineHandlingHours a * costPerAgentHour a

def costPerContactBaseline (a : Answers) : ℚ :=
  if 0 < contactsPerYear a then baselineHandlingCost a / contactsPerYear a
  else 0

/-- In this variant the priority toggles gate fixed assumption
percentages completely: the off branch is 0 for every dimension,
including handling time. -/
def ahtReductionPct (a : Answers) : ℚ :=
  if a.reduceAht then assumedAhtReductionPct else 0

def qaEfficiencyGainPct (a : Answers) : ℚ :=
  if a.reduceQa then assumedQaEfficiencyGainPct else 0

def contactDeflectionPct (a : Answers) : ℚ :=
  if a.reduceContacts then assumedContactDeflectionPct else 0

def revenueProtectionPct (a : Answers) : ℚ :=
  if a.improveCx then assumedRevenueProtectionPct else 0

def newAhtMins (a : Answers) : ℚ := a.ahtMins * (1 - ahtReductionPct a / 100)

def newHandlingHours (a : Answers) : ℚ :=
  contactsPerYear a * (if 0 < newAhtMins a then newAhtMins a / 60 else 0)

def newHandlingCost (a : Answers) : ℚ := newHandlingHours a * costPerAgentHour a

def savingsAht (a : Answers) : ℚ := baselineHandlingCost a - newHandlingCost a

def hoursSavedAht (a : Answers) : ℚ :=
  baselineHandlingHours a - newHandlingHours a

def qaHourlyCost (a : Answers) : ℚ := costPerAgentHour a * qaHourlyMultiplier

def baselineQaHours (a : Answers) : ℚ :=
  contactsPerYear a * (qaCoveragePct / 100) * (qaTimePerContactMins / 60)

def baselineQaCost (a : Answers) : ℚ := baselineQaHours a * qaHourlyCost a

def newQaHours (a : Answers) : ℚ :=
  baselineQaHours a * (1 - qaEfficiencyGainPct a / 100)

def newQaCost (a : Answers) : ℚ := newQaHours a * qaHourlyCost a

def savingsQa (a : Answers) : ℚ := baselineQaCost a - newQaCost a

def hoursSavedQa (a : Answers) : ℚ := baselineQaHours a - newQaHours a

def contactsAvoidedPerYear (a : Answers) : ℚ :=
  contactsPerYear a * (contactDeflectionPct a / 100)

def savingsDeflection (a : Answers) : ℚ :=
  contactsAvoidedPerYear a * costPerContactBaseline a

def revenueProtected (a : Answers) : ℚ :=
  a.annualRevenueInfluenced * (revenueProtectionPct a / 100)

def totalAnnualBenefit (a : Answers) : ℚ :=
  jsOrZero (savingsAht a) + jsOrZero (savingsQa a) +
    jsOrZero (savingsDeflection a) + jsOrZero (revenueProtected a)

def netGain (a : Answers) : ℚ :=
  totalAnnualBenefit a - jsOrZero a.edgetierAnnualCost

def roiPct (a : Answers) : ℚ :=
  if 0 < a.edgetierAnnualCost then netGain a / a.edgetierAnnualCost * 100
  else 0

def totalHoursSaved (a : Answers) : ℚ :=
  jsOrZero (hoursSavedAht a) + jsOrZero (hoursSavedQa a)

def monthlyBenefit (a : Answers) : ℚ :=
  if 0 < totalAnnualBenefit a then totalAnnualBenefit a / 12 else 0

def paybackMonths (a : Answers) : ℚ :=
  if 0 < monthlyBenefit a then a.edgetierAnnualCost / monthlyBenefit a else 0

/-- The record returned by the results memo of the direct-numeric variant. -/
structure Results where
  numAgents : ℚ
  contactsPerYear : ℚ
  costPerContactBaseline : ℚ
  contactsAvoidedPerYear : ℚ
  savingsAht : ℚ
  savingsQa : ℚ
  savingsDeflection : ℚ
  revenueProtected : ℚ
  totalAnnualBenefit : ℚ
  netGain : ℚ
  roiPct : ℚ
  totalHoursSaved : ℚ
  paybackMonths : ℚ

/-- Evaluation of the direct-numeric engine. -/
def results (a : Answers) : Results :=
  ⟨a.numAgents, contactsPerYear a, costPerContactBaseline a,
   contactsAvoidedPerYear a, savingsAht a, savingsQa a, savingsDeflection a,
   revenueProtected a, totalAnnualBenefit a, netGain a, roiPct a,
   totalHoursSaved a, paybackMonths a⟩

/-- Evaluation of the direct-numeric engine with every division the
source performs routed through `jsDiv`, so that a reachable division by
zero surfaces as `none` instead of a float artifact. -/
def resultsOpt (a : Answers) : Option Results :=
  let contactsPerYear := a.contactsPerMonth * 12
  (if 0 < WORKING_HOURS_PER_YEAR then
      jsDiv a.annualCostPerAgent WORKING_HOURS_PER_YEAR
    else some 0).bind fun costPerAgentHour =>
  (if 0 < a.ahtMins then jsDiv a.ahtMins 60 else some 0).bind
    fun ahtHoursPerContact =>
  let baselineHandlingHours := contactsPerYear * ahtHoursPerContact
  let baselineHandlingCost := baselineHandlingHours * costPerAgentHour
  (if 0 < contactsPerYear then jsDiv baselineHandlingCost contactsPerYear
    else some 0).bind fun costPerContactBaseline =>
  let ahtReductionPct := if a.reduceAht then assumedAhtReductionPct else 0
  let qaEfficiencyGainPct := if a.reduceQa then assumedQaEfficiencyGainPct else 0
  let contactDeflectionPct :=
    if a.reduceContacts then assumedContactDeflectionPct else 0
  let revenueProtectionPct :=
    if a.improveCx then assumedRevenueProtectionPct else 0
  (jsDiv ahtReductionPct 100).bind fun ahtReductionFrac =>
  let newAhtMins := a.ahtMins * (1 - ahtReductionFrac)
  (if 0 < newAhtMins then jsDiv newAhtMins 60 else some 0).bind
    fun newAhtHoursPerContact =>
  let newHandlingHours := contactsPerYear * newAhtHoursPerContact
  let newHandlingCost := newHandlingHours * costPerAgentHour
  let savingsAht := baselineHandlingCost - newHandlingCost
  let hoursSavedAht := baselineHandlingHours - newHandlingHours
  let qaHourlyCost := costPerAgentHour * qaHourlyMultiplier
  (jsDiv qaCoveragePct 100).bind fun qaCoverageFrac =>
  (jsDiv qaTimePerContactMins 60).bind fun qaHoursPerContact =>
  let baselineQaHours := contactsPerYear * qaCoverageFrac * qaHoursPerContact
  let baselineQaCost := baselineQaHours * qaHourlyCost
  (jsDiv qaEfficiencyGainPct 100).bind fun qaGainFrac =>
  let newQaHours := baselineQaHours * (1 - qaGainFrac)
  let newQaCost := newQaHours * qaHourlyCost
  let savingsQa := baselineQaCost - newQaCost
  let hoursSavedQa := baselineQaHours - newQaHours
  (jsDiv contactDeflectionPct 100).bind fun deflectionFrac =>
  let contactsAvoidedPerYear := contactsPerYear * deflectionFrac
  let savingsDeflection := contactsAvoidedPerYear * costPerContactBaseline
  (jsDiv revenueProtectionPct 100).bind fun revenueFrac =>
  let revenueProtected := a.annualRevenueInfluenced * revenueFrac
  let totalAnnualBenefit :=
    jsOrZero savingsAht + jsOrZero savingsQa + jsOrZero savingsDeflection +
      jsOrZero revenueProtected
  let netGain := totalAnnualBenefit - jsOrZero a.edgetierAnnualCost
  (if 0 < a.edgetierAnnualCost then
      (jsDiv netGain a.edgetierAnnualCost).map (fun r => r * 100)
    else some 0).bind fun roiPct =>
  let totalHoursSaved := jsOrZero hoursSavedAht + jsOrZero hoursSavedQa
  (if 0 < totalAnnualBenefit then jsDiv totalAnnualBenefit 12
    else some 0).bind fun monthlyBenefit =>
  (if 0 < monthlyBenefit then jsDiv a.edgetierAnnualCost monthlyBenefit
    else some 0).bind fun paybackMonths =>
  some ⟨a.numAgents, contactsPerYear, costPerContactBaseline,
    contactsAvoidedPerYear, savingsAht, savingsQa, savingsDeflection,
    revenueProtected, totalAnnualBenefit, netGain, roiPct, totalHoursSaved,
    paybackMonths⟩

end DirectNumeric

namespace Richer

/-- Team size bands of the 6-step wizard (no 1-10 band here). -/
inductive TeamSizeBand
  | b10to25 | b26to50 | b51to100 | b101to250 | b250plus
deriving DecidableEq

/-- TEAM_SIZE_MAP of the richer variant (fallback entry 51-100 is dead
code over the closed enum). -/
def TEAM_SIZE_MAP : TeamSizeBand → ℚ
  | .b10to25 => 20
  | .b26to50 => 40
  | .b51to100 => 80
  | .b101to250 => 150
  | .b250plus => 300

/-- Region benchmark bands. -/
inductive RegionBand
  | UK_IE_NORDICS_ANZ | SOUTHERN_EUROPE | EASTERN_EUROPE | APAC_INDIA_PH
deriving DecidableEq

/-- REGION_COST_MAP; the source falls back to the UK_IE_NORDICS_ANZ entry
for an unrecognized key, but the key type is the closed enum, so the
lookup is total. -/
def REGION_COST_MAP : RegionBand → ℚ
  | .UK_IE_NORDICS_ANZ => 50000
  | .SOUTHERN_EUROPE => 42000
  | .EASTERN_EUROPE => 30000
  | .APAC_INDIA_PH => 25000

/-- Cost per agent source selector: direct value or region benchmark. -/
inductive CostMode
  | known | benchmark
deriving DecidableEq

/-- Daily contact volume bands (no 10-20 band here). -/
inductive ContactVolumeBand
  | c20to30 | c30to40 | c40to60 | c60plus
deriving DecidableEq

/-- CONTACTS_PER_AGENT_MAP (fallback entry 40-60 is dead code over the
closed enum). -/
def CONTACTS_PER_AGENT_MAP : ContactVolumeBand → ℚ
  | .c20to30 => 25
  | .c30to40 => 35
  | .c40to60 => 50
  | .c60plus => 70

/-- AI maturity levels of the richer variant. -/
inductive AiMaturity
  | low | moderate | advanced
deriving DecidableEq

/-- AI_IMPROVEMENTS table of the richer variant (same rows as the banded
one under different level names). -/
def AI_IMPROVEMENTS : AiMaturity → Improvements
  | .low => ⟨15, 60, 20⟩
  | .moderate => ⟨12, 50, 15⟩
  | .advanced => ⟨8, 35, 10⟩

/-- Revenue impact types. -/
inductive RevenueImpact
  | cost | retention | upsell
deriving DecidableEq

/-- Rollout scope options. -/
inductive RolloutScope
  | single | few | multi
deriving DecidableEq

/-- Investment sizing mode: automatic rule of thumb or custom ballpark. -/
inductive InvestmentMode
  | auto | custom
deriving DecidableEq

/-- ASSUMPTIONS.qaCoveragePct. -/
def qaCoveragePct : ℚ := 5

/-- ASSUMPTIONS.qaTimePerContactMins. -/
def qaTimePerContactMins : ℚ := 6

/-- ASSUMPTIONS.qaHourlyMultiplier = 1.2. -/
def qaHourlyMultiplier : ℚ := 6/5

/-- The answer record of the richer 6-step wizard: the component state the
results memo depends on. -/
structure Answers where
  teamSizeBand : TeamSizeBand
  costMode : CostMode
  knownCostPerAgent : ℚ
  regionBand : RegionBand
  contactVolumeBand : ContactVolumeBand
  complexityLevel : ComplexityLevel
  aiMaturity : AiMaturity
  priorityAht : Bool
  priorityQa : Bool
  priorityDeflection : Bool
  priorityCx : Bool
  revenueBand : RevenueBand
  revenueImpact : RevenueImpact
  skipRevenueImpact : Bool
  rolloutScope : RolloutScope
  investmentMode : InvestmentMode
  customEdgetierCost : ℚ

/-- Replace only the complexity level, keeping every other answer fixed. -/
def setComplexity (a : Answers) (l : ComplexityLevel) : Answers :=
  ⟨a.teamSizeBand, a.costMode, a.knownCostPerAgent, a.regionBand,
   a.contactVolumeBand, l, a.aiMaturity, a.priorityAht, a.priorityQa,
   a.priorityDeflection, a.priorityCx, a.revenueBand, a.revenueImpact,
   a.skipRevenueImpact, a.rolloutScope, a.investmentMode,
   a.customEdgetierCost⟩

/-- Replace only the rollout scope, keeping every other answer fixed. -/
def setRolloutScope (a : Answers) (s : RolloutScope) : Answers :=
  ⟨a.teamSizeBand, a.costMode, a.knownCostPerAgent, a.regionBand,
   a.contactVolumeBand, a.complexityLevel, a.aiMaturity, a.priorityAht,
   a.priorityQa, a.priorityDeflection, a.priorityCx, a.revenueBand,
   a.revenueImpact, a.skipRevenueImpact, s, a.investmentMode,
   a.customEdgetierCost⟩

/-- Replace only the custom EdgeTier cost, keeping every other answer
fixed. -/
def setCustomCost (a : Answers) (c : ℚ) : Answers :=
  ⟨a.teamSizeBand, a.costMode, a.knownCostPerAgent, a.regionBand,
   a.contactVolumeBand, a.complexityLevel, a.aiMaturity, a.priorityAht,
   a.priorityQa, a.priorityDeflection, a.priorityCx, a.revenueBand,
   a.revenueImpact, a.skipRevenueImpact, a.rolloutScope, a.investmentMode,
   c⟩

def numAgents (a : Answers) : ℚ := TEAM_SIZE_MAP a.teamSizeBand

/-- Cost resolution: a known strictly positive direct value wins,
anything else resolves through the region benchmark table. -/
def annualCostPerAgent (a : Answers) : ℚ :=
  if a.costMode = CostMode.known ∧ 0 < a.knownCostPerAgent then
    a.knownCostPerAgent
  else REGION_COST_MAP a.regionBand

def contactsPerAgentPerDay (a : Answers) : ℚ :=
  CONTACTS_PER_AGENT_MAP a.contactVolumeBand

def workingDaysPerMonth : ℚ := 21

def contactsPerMonth (a : Answers) : ℚ :=
  numAgents a * contactsPerAgentPerDay a * workingDaysPerMonth

def contactsPerYear (a : Answers) : ℚ := contactsPerMonth a * 12

def ahtMins (a : Answers) : ℚ := ahtMinsOf a.complexityLevel

def costPerAgentHour (a : Answers) : ℚ :=
  if 0 < WORKING_HOURS_PER_YEAR then annualCostPerAgent a / WORKING_HOURS_PER_YEAR
  else 0

def baselineHandlingHours (a : Answers) : ℚ :=
  contactsPerYear a * (if 0 < ahtMins a then ahtMins a / 60 else 0)

def baselineHandlingCost (a : Answers) : ℚ :=
  baselineHandlingHours a * costPerAgentHour a

def costPerContactBaseline (a : Answers) : ℚ :=
  if 0 < contactsPerYear a then baselineHandlingCost a / contactsPerYear a
  else 0

def ahtFactor (a : Answers) : ℚ := if a.priorityAht then 1 else 3/10

def qaFactor (a : Answers) : ℚ := if a.priorityQa then 1 else 0

def deflectionFactor (a : Answers) : ℚ := if a.priorityDeflection then 1 else 0

def ahtReductionPct (a : Answers) : ℚ :=
  (AI_IMPROVEMENTS a.aiMaturity).ahtReductionPct * ahtFactor a

def qaEfficiencyGainPct (a : Answers) : ℚ :=
  (AI_IMPROVEMENTS a.aiMaturity).qaEfficiencyGainPct * qaFactor a

def contactDeflectionPct (a : Answers) : ℚ :=
  (AI_IMPROVEMENTS a.aiMaturity).contactDeflectionPct * deflectionFactor a

/-- Condition of the revenue gate:
!skipRevenueImpact && revenueBand !== unknown && priorityCx. -/
def includeRevenue (a : Answers) : Prop :=
  a.skipRevenueImpact = false ∧ a.revenueBand ≠ RevenueBand.unknown ∧
    a.priorityCx = true

instance includeRevenueDecidable (a : Answers) : Decidable (includeRevenue a) := by
  unfold includeRevenue
  infer_instance

def annualRevenueInfluenced (a : Answers) : ℚ :=
  if includeRevenue a then approxRevenue a.revenueBand * (3/10) else 0

/-- Base protection percentage per revenue impact type: 0.5 / 1.0 / 1.5. -/
def baseRevenuePct : RevenueImpact → ℚ
  | .cost => 1/2
  | .retention => 1
  | .upsell => 3/2

def revenueProtectionPct (a : Answers) : ℚ :=
  if includeRevenue a then baseRevenuePct a.revenueImpact else 0

/-- Base license cost derived from team size (auto mode only): the
richer variant has a single breakpoint at 50 covering both small tiers. -/
def baseLicense (a : Answers) : ℚ :=
  if numAgents a ≤ 50 then 80000
  else if numAgents a ≤ 100 then 150000
  else if numAgents a ≤ 250 then 250000
  else 350000

/-- Rollout scope multiplier: 1 / 1.8 / 2.5. -/
def rolloutMultiplier : RolloutScope → ℚ
  | .single => 1
  | .few => 9/5
  | .multi => 5/2

/-- The investment derivation: the let-binding starts from the custom
ballpark and is overwritten in auto mode by baseLicense times the
rollout multiplier; no clamping is applied in custom mode. -/
def edgetierAnnualCost (a : Answers) : ℚ :=
  if a.investmentMode = InvestmentMode.auto then
    baseLicense a * rolloutMultiplier a.rolloutScope
  else a.customEdgetierCost

def newAhtMins (a : Answers) : ℚ :=
  ahtMins a * (1 - jsOrZero (ahtReductionPct a) / 100)

def newHandlingHours (a : Answers) : ℚ :=
  contactsPerYear a * (if 0 < newAhtMins a then newAhtMins a / 60 else 0)

def newHandlingCost (a : Answers) : ℚ := newHandlingHours a * costPerAgentHour a

def savingsAht (a : Answers) : ℚ := baselineHandlingCost a - newHandlingCost a

def hoursSavedAht (a : Answers) : ℚ :=
  baselineHandlingHours a - newHandlingHours a

def qaHourlyCost (a : Answers) : ℚ := costPerAgentHour a * qaHourlyMultiplier

def baselineQaHours (a : Answers) : ℚ :=
  contactsPerYear a * (qaCoveragePct / 100) * (qaTimePerContactMins / 60)

def baselineQaCost (a : Answers) : ℚ := baselineQaHours a * qaHourlyCost a

def newQaHours (a : Answers) : ℚ :=
  baselineQaHours a * (1 - jsOrZero (qaEfficiencyGainPct a) / 100)

def newQaCost (a : Answers) : ℚ := newQaHours a * qaHourlyCost a

def savingsQa (a : Answers) : ℚ := baselineQaCost a - newQaCost a

def hoursSavedQa (a : Answers) : ℚ := baselineQaHours a - newQaHours a

def contactsAvoidedPerYear (a : Answers) : ℚ :=
  contactsPerYear a * (jsOrZero (contactDeflectionPct a) / 100)

def savingsDeflection (a : Answers) : ℚ :=
  contactsAvoidedPerYear a * costPerContactBaseline a

def revenueProtected (a : Answers) : ℚ :=
  annualRevenueInfluenced a * (jsOrZero (revenueProtectionPct a) / 100)

def totalAnnualBenefit (a : Answers) : ℚ :=
  jsOrZero (savingsAht a) + jsOrZero (savingsQa a) +
    jsOrZero (savingsDeflection a) + jsOrZero (revenueProtected a)

def netGain (a : Answers) : ℚ :=
  totalAnnualBenefit a - jsOrZero (edgetierAnnualCost a)

def roiPct (a : Answers) : ℚ :=
  if 0 < edgetierAnnualCost a then netGain a / edgetierAnnualCost a * 100
  else 0

def totalHoursSaved (a : Answers) : ℚ :=
  jsOrZero (hoursSavedAht a) + jsOrZero (hoursSavedQa a)

def monthlyBenefit (a : Answers) : ℚ :=
  if 0 < totalAnnualBenefit a then totalAnnualBenefit a / 12 else 0

def paybackMonths (a : Answers) : ℚ :=
  if 0 < monthlyBenefit a then edgetierAnnualCost a / monthlyBenefit a else 0

/-- The record returned by the results memo of the richer variant. -/
structure Results where
  numAgents : ℚ
  annualCostPerAgent : ℚ
  contactsPerMonth : ℚ
  contactsPerYear : ℚ
  ahtMins : ℚ
  costPerContactBaseline : ℚ
  contactsAvoidedPerYear : ℚ
  savingsAht : ℚ
  savingsQa : ℚ
  savingsDeflection : ℚ
  revenueProtected : ℚ
  totalAnnualBenefit : ℚ
  netGain : ℚ
  roiPct : ℚ
  totalHoursSaved : ℚ
  paybackMonths : ℚ
  edgetierAnnualCost : ℚ

/-- Evaluation of the richer engine on a finalized answer record. -/
def results (a : Answers) : Results :=
  ⟨numAgents a, annualCostPerAgent a, contactsPerMonth a, contactsPerYear a,
   ahtMins a, costPerContactBaseline a, contactsAvoidedPerYear a,
   savingsAht a, savingsQa a, savingsDeflection a, revenueProtected a,
   totalAnnualBenefit a, netGain a, roiPct a, totalHoursSaved a,
   paybackMonths a, edgetierAnnualCost a⟩

end Richer

/-- The concrete scenario of claim C1: team size 26-50, volume 30-40,
complexity 3, medium AI level, all priorities on except customer
experience, revenue not included. -/
def scenarioC1 : Banded.Answers :=
  ⟨Banded.TeamSizeBand.b26to50, Banded.ContactVolumeBand.c30to40,
   ComplexityLevel.l3, Banded.AiLevel.medium, true, true, true, false,
   RevenueBand.unknown, false⟩

/-- A direct-numeric record with handling time reduction off and a
positive baseline cost, used against claim C3. -/
def sampleD3 : DirectNumeric.Answers :=
  ⟨10, 1000, 7, 45000, false, true, true, false, 180000, 0⟩

/-- A direct-numeric record with a negative EdgeTier cost (reachable
because the input boundary does not clamp negatives), used against
claim C4. -/
def sampleDneg : DirectNumeric.Answers :=
  ⟨10, 1000, 7, 45000, true, true, true, false, -1000, 0⟩

/-- A plain direct-numeric record matching the default state of the
3-step calculator. -/
def sampleD : DirectNumeric.Answers :=
  ⟨80, 60000, 7, 45000, true, true, true, false, 180000, 0⟩

/-- A direct-numeric record with zero monthly contacts, used for the
zero-volume boundary of claim C9. -/
def sampleDzero : DirectNumeric.Answers :=
  ⟨10, 0, 7, 45000, true, true, true, false, 180000, 0⟩

/-- A plain banded record matching the default state of the 7-step
wizard. -/
def sampleB : Banded.Answers :=
  ⟨Banded.TeamSizeBand.b26to50, Banded.ContactVolumeBand.c30to40,
   ComplexityLevel.l3, Banded.AiLevel.medium, true, true, true, false,
   RevenueBand.unknown, false⟩

/-- A plain richer record matching the default state of the 6-step wizard
(auto investment, benchmark cost, revenue skipped). -/
def sampleR : Richer.Answers :=
  ⟨Richer.TeamSizeBand.b51to100, Richer.CostMode.benchmark, 45000,
   Richer.RegionBand.UK_IE_NORDICS_ANZ, Richer.ContactVolumeBand.c40to60,
   ComplexityLevel.l3, Richer.AiMaturity.moderate, true, true, true, false,
   RevenueBand.unknown, Richer.RevenueImpact.retention, true,
   Richer.RolloutScope.single, Richer.InvestmentMode.auto, 180000⟩

/-- A richer record in custom investment mode with a negative supplied
cost, used against claim C5. -/
def sampleRcustomNeg : Richer.Answers :=
  ⟨Richer.TeamSizeBand.b51to100, Richer.CostMode.benchmark, 45000,
   Richer.RegionBand.UK_IE_NORDICS_ANZ, Richer.ContactVolumeBand.c40to60,
   ComplexityLevel.l3, Richer.AiMaturity.moderate, true, true, true, false,
   RevenueBand.unknown, Richer.RevenueImpact.retention, true,
   Richer.RolloutScope.single, Richer.InvestmentMode.custom, -100⟩

/-- A richer record in custom investment mode with the default ballpark. -/
def sampleRcustom : Richer.Answers :=
  ⟨Richer.TeamSizeBand.b51to100, Richer.CostMode.benchmark, 45000,
   Richer.RegionBand.UK_IE_NORDICS_ANZ, Richer.ContactVolumeBand.c40to60,
   ComplexityLevel.l3, Richer.AiMaturity.moderate, true, true, true, false,
   RevenueBand.unknown, Richer.RevenueImpact.retention, true,
   Richer.RolloutScope.single, Richer.InvestmentMode.custom, 180000⟩

/-- A richer record in known cost mode with a positive direct cost. -/
def sampleRknown : Richer.Answers :=
  ⟨Richer.TeamSizeBand.b51to100, Richer.CostMode.known, 45000,
   Richer.RegionBand.UK_IE_NORDICS_ANZ, Richer.ContactVolumeBand.c40to60,
   ComplexityLevel.l3, Richer.AiMaturity.moderate, true, true, true, false,
   RevenueBand.unknown, Richer.RevenueImpact.retention, true,
   Richer.RolloutScope.single, Richer.InvestmentMode.auto, 180000⟩

/-- A richer record in known cost mode with a zero direct cost. -/
def sampleRknownZero : Richer.Answers :=
  ⟨Richer.TeamSizeBand.b51to100, Richer.CostMode.known, 0,
   Richer.RegionBand.UK_IE_NORDICS_ANZ, Richer.ContactVolumeBand.c40to60,
   ComplexityLevel.l3, Richer.AiMaturity.moderate, true, true, true, false,
   RevenueBand.unknown, Richer.RevenueImpact.retention, true,
   Richer.RolloutScope.single, Richer.InvestmentMode.auto, 180000⟩

/-- A banded record with the QA and deflection priorities off. -/
def sampleBoff : Banded.Answers :=
  ⟨Banded.TeamSizeBand.b26to50, Banded.ContactVolumeBand.c30to40,
   ComplexityLevel.l3, Banded.AiLevel.medium, true, false, false, false,
   RevenueBand.unknown, false⟩

/-- A richer record with the QA and deflection priorities off. -/
def sampleRoff : Richer.Answers :=
  ⟨Richer.TeamSizeBand.b51to100, Richer.CostMode.benchmark, 45000,
   Richer.RegionBand.UK_IE_NORDICS_ANZ, Richer.ContactVolumeBand.c40to60,
   ComplexityLevel.l3, Richer.AiMaturity.moderate, true, false, false, false,
   RevenueBand.unknown, Richer.RevenueImpact.retention, true,
   Richer.RolloutScope.single, Richer.InvestmentMode.auto, 180000⟩

/-- A direct-numeric record with every improvement toggle off. -/
def sampleDoff : DirectNumeric.Answers :=
  ⟨10, 1000, 7, 45000, false, false, false, false, 180000, 0⟩

/-- Claim C1 (amended): the banded end-to-end scenario yields numAgents 40,
ahtMins 7, contactsPerYear 352800, investment 120000, revenueProtected 0,
baselineHandlingCost rounding to 1052386, totalAnnualBenefit rounding to
311206, netGain rounding to 191206 and roiPct rounding to 159 percent. -/
theorem claim_C1_amended :
    (Banded.results scenarioC1).numAgents = 40 ∧
    (Banded.results scenarioC1).ahtMins = 7 ∧
    (Banded.results scenarioC1).contactsPerYear = 352800 ∧
    (Banded.results scenarioC1).edgetierAnnualCost = 120000 ∧
    (Banded.results scenarioC1).revenueProtected = 0 ∧
    round (Banded.baselineHandlingCost scenarioC1) = 1052386 ∧
    round (Banded.results scenarioC1).totalAnnualBenefit = 311206 ∧
    round (Banded.results scenarioC1).netGain = 191206 ∧
    round (Banded.results scenarioC1).roiPct = 159 := by
  have hbhc : Banded.baselineHandlingCost scenarioC1 = 11576250/11 := by
    norm_num [Banded.baselineHandlingCost, Banded.baselineHandlingHours,
      Banded.contactsPerYear, Banded.contactsPerMonth, Banded.numAgents,
      Banded.contactsPerAgentPerDay, Banded.workingDaysPerMonth,
      Banded.ahtMins, Banded.costPerAgentHour, Banded.annualCostPerAgent,
      Banded.DEFAULT_COST_PER_AGENT, WORKING_HOURS_PER_YEAR, scenarioC1,
      Banded.TEAM_SIZE_MAP, Banded.CONTACTS_PER_AGENT_MAP, ahtMinsOf]
  have htab : Banded.totalAnnualBenefit scenarioC1 = 6846525/22 := by
    norm_num [Banded.totalAnnualBenefit, Banded.savingsAht, Banded.savingsQa,
      Banded.savingsDeflection, Banded.revenueProtected, jsOrZero,
      Banded.baselineHandlingCost, Banded.baselineHandlingHours,
      Banded.newHandlingCost, Banded.newHandlingHours, Banded.newAhtMins,
      Banded.baselineQaCost, Banded.newQaCost, Banded.baselineQaHours,
      Banded.newQaHours, Banded.qaHourlyCost, Banded.qaHourlyMultiplier,
      Banded.qaCoveragePct, Banded.qaTimePerContactMins,
      Banded.contactsAvoidedPerYear, Banded.costPerContactBaseline,
      Banded.annualRevenueInfluenced, Banded.revenueProtectionPct,
      Banded.includeRevenue, Banded.ahtReductionPct, Banded.qaEfficiencyGainPct,
      Banded.contactDeflectionPct, Banded.ahtFactor, Banded.qaFactor,
      Banded.deflectionFactor, Banded.AI_IMPROVEMENTS,
      Banded.contactsPerYear, Banded.contactsPerMonth, Banded.numAgents,
      Banded.contactsPerAgentPerDay, Banded.workingDaysPerMonth,
      Banded.ahtMins, Banded.costPerAgentHour, Banded.annualCostPerAgent,
      Banded.DEFAULT_COST_PER_AGENT, WORKING_HOURS_PER_YEAR, scenarioC1,
      Banded.TEAM_SIZE_MAP, Banded.CONTACTS_PER_AGENT_MAP, ahtMinsOf,
      approxRevenue]
  have hcost : Banded.edgetierAnnualCost scenarioC1 = 120000 := by
    norm_num [Banded.edgetierAnnualCost, Banded.numAgents, scenarioC1,
      Banded.TEAM_SIZE_MAP]
  refine ⟨?_, ?_, ?_, ?_, ?_, ?_, ?_, ?_, ?_⟩
  · norm_num [Banded.results, Banded.numAgents, scenarioC1, Banded.TEAM_SIZE_MAP]
  · norm_num [Banded.results, Banded.ahtMins, scenarioC1, ahtMinsOf]
  · norm_num [Banded.results, Banded.contactsPerYear, Banded.contactsPerMonth,
      Banded.numAgents, Banded.contactsPerAgentPerDay,
      Banded.workingDaysPerMonth, scenarioC1, Banded.TEAM_SIZE_MAP,
      Banded.CONTACTS_PER_AGENT_MAP]
  · exact hcost
  · norm_num [Banded.results, Banded.revenueProtected,
      Banded.annualRevenueInfluenced, Banded.revenueProtectionPct,
      Banded.includeRevenue, scenarioC1, jsOrZero]
  · rw [hbhc, round_eq, Int.floor_eq_iff]
    norm_num
  · show round (Banded.totalAnnualBenefit scenarioC1) = 311206
    rw [htab, round_eq, Int.floor_eq_iff]
    norm_num
  · show round (Banded.netGain scenarioC1) = 191206
    rw [show Banded.netGain scenarioC1 = 4206525/22 by
      rw [Banded.netGain, htab, hcost]
      norm_num [jsOrZero]]
    rw [round_eq, Int.floor_eq_iff]
    norm_num
  · show round (Banded.roiPct scenarioC1) = 159
    rw [show Banded.roiPct scenarioC1 = 4206525/26400 by
      rw [Banded.roiPct, if_pos (by rw [hcost]; norm_num)]
      rw [show Banded.netGain scenarioC1 = 4206525/22 by
        rw [Banded.netGain, htab, hcost]
        norm_num [jsOrZero]]
      rw [hcost]
      norm_num]
    rw [round_eq, Int.floor_eq_iff]
    norm_num

/-- Claim C1 as stated is false: at the stated inputs the exact total
annual benefit is 6846525/22, which is about 311205.7 and is more than 8
away from the claimed 311214, so under the zero-decimal rounding the spec
states for output it displays as 311206, not 311214. -/
theorem claim_C1_counterexample :
    (Banded.results scenarioC1).totalAnnualBenefit = 6846525 / 22 ∧
    round (Banded.results scenarioC1).totalAnnualBenefit ≠ 311214 ∧
    8 < |(Banded.results scenarioC1).totalAnnualBenefit - 311214| := by
  have htab : Banded.totalAnnualBenefit scenarioC1 = 6846525/22 := by
    norm_num [Banded.totalAnnualBenefit, Banded.savingsAht, Banded.savingsQa,
      Banded.savingsDeflection, Banded.revenueProtected, jsOrZero,
      Banded.baselineHandlingCost, Banded.baselineHandlingHours,
      Banded.newHandlingCost, Banded.newHandlingHours, Banded.newAhtMins,
      Banded.baselineQaCost, Banded.newQaCost, Banded.baselineQaHours,
      Banded.newQaHours, Banded.qaHourlyCost, Banded.qaHourlyMultiplier,
      Banded.qaCoveragePct, Banded.qaTimePerContactMins,
      Banded.contactsAvoidedPerYear, Banded.costPerContactBaseline,
      Banded.annualRevenueInfluenced, Banded.revenueProtectionPct,
      Banded.includeRevenue, Banded.ahtReductionPct, Banded.qaEfficiencyGainPct,
      Banded.contactDeflectionPct, Banded.ahtFactor, Banded.qaFactor,
      Banded.deflectionFactor, Banded.AI_IMPROVEMENTS,
      Banded.contactsPerYear, Banded.contactsPerMonth, Banded.numAgents,
      Banded.contactsPerAgentPerDay, Banded.workingDaysPerMonth,
      Banded.ahtMins, Banded.costPerAgentHour, Banded.annualCostPerAgent,
      Banded.DEFAULT_COST_PER_AGENT, WORKING_HOURS_PER_YEAR, scenarioC1,
      Banded.TEAM_SIZE_MAP, Banded.CONTACTS_PER_AGENT_MAP, ahtMinsOf,
      approxRevenue]
  refine ⟨htab, ?_, ?_⟩
  · show round (Banded.totalAnnualBenefit scenarioC1) ≠ 311214
    rw [htab, round_eq]
    rw [show ((6846525:ℚ)/22 + 1/2) = 6846536/22 by norm_num]
    rw [show ⌊(6846536:ℚ)/22⌋ = 311206 by
      rw [Int.floor_eq_iff]
      norm_num]
    norm_num
  · show 8 < |Banded.totalAnnualBenefit scenarioC1 - 311214|
    rw [htab, abs_of_nonpos (by norm_num)]
    norm_num

/-- jsOrZero is the identity on rationals: only NaN (absent here) is
collapsed besides 0 itself. -/
theorem jsOrZero_eq (x : ℚ) : jsOrZero x = x := by
  unfold jsOrZero
  split_ifs with h
  · exact h.symm
  · rfl

/-- A non-unknown revenue band maps to a strictly positive approximate
revenue. -/
theorem approxRevenue_pos (b : RevenueBand) (hb : b ≠ RevenueBand.unknown) :
    0 < approxRevenue b := by
  cases b
  · exact absurd rfl hb
  all_goals norm_num [approxRevenue]

/-- Claim C7 (amended): at the numeric input boundary, a non-numeric or
empty entry (parseFloat gives NaN) is delivered as 0, a parsed 0 is
delivered as 0, and any other parsed numeric — including a negative one —
is delivered unchanged; negatives are not clamped. -/
theorem claim_C7_amended :
    numberInputOnChange none = 0 ∧
    numberInputOnChange (some 0) = 0 ∧
    (∀ v : ℚ, v ≠ 0 → numberInputOnChange (some v) = v) := by
  refine ⟨rfl, by norm_num [numberInputOnChange], ?_⟩
  intro v hv
  simp [numberInputOnChange, hv]

/-- Witness for claim C7 at the concrete parsed value -3. -/
theorem claim_C7_witness : numberInputOnChange (some (-3)) = -3 :=
  claim_C7_amended.2.2 (-3) (by norm_num)

/-- Claim C7 as stated is false: the parsed negative entry -5 reaches the
engine as -5, not clamped to 0. -/
theorem claim_C7_counterexample :
    numberInputOnChange (some (-5)) = -5 ∧
    numberInputOnChange (some (-5)) ≠ 0 := by
  norm_num [numberInputOnChange]

/-- Closed form of the banded revenue side: everything is gated on the
single revenue condition. -/
theorem banded_revenueProtected_eq (a : Banded.Answers) :
    Banded.revenueProtected a =
      if Banded.includeRevenue a then
        approxRevenue a.revenueBand * (3/10) * (1/100)
      else 0 := by
  unfold Banded.revenueProtected Banded.annualRevenueInfluenced
    Banded.revenueProtectionPct
  split_ifs with h
  · simp [jsOrZero_eq]
  · simp [jsOrZero_eq]

/-- The richer protection percentages 0.5 / 1.0 / 1.5 are all positive. -/
theorem Richer.baseRevenuePct_pos (i : Richer.RevenueImpact) :
    0 < Richer.baseRevenuePct i := by
  cases i <;> norm_num [Richer.baseRevenuePct]

/-- Closed form of the richer revenue side. -/
theorem richer_revenueProtected_eq (a : Richer.Answers) :
    Richer.revenueProtected a =
      if Richer.includeRevenue a then
        approxRevenue a.revenueBand * (3/10) *
          (Richer.baseRevenuePct a.revenueImpact / 100)
      else 0 := by
  unfold Richer.revenueProtected Richer.annualRevenueInfluenced
    Richer.revenueProtectionPct
  split_ifs with h
  · simp [jsOrZero_eq]
  · simp [jsOrZero_eq]

/-- Claim C2: in both banded variants, revenueProtected is nonzero exactly
when the inclusion flag is set, the revenue band is not unknown and the
customer experience priority is on; when the gate fails, both
intermediates and revenueProtected are exactly 0, and revenueProtected is
never negative. -/
theorem claim_C2_revenue_gating :
    (∀ a : Banded.Answers,
      ((Banded.results a).revenueProtected ≠ 0 ↔
        (a.includeRevenueImpact = true ∧ a.revenueBand ≠ RevenueBand.unknown ∧
          a.priorityCx = true)) ∧
      0 ≤ (Banded.results a).revenueProtected ∧
      (¬ (a.includeRevenueImpact = true ∧ a.revenueBand ≠ RevenueBand.unknown ∧
          a.priorityCx = true) →
        Banded.annualRevenueInfluenced a = 0 ∧
          Banded.revenueProtectionPct a = 0 ∧
          (Banded.results a).revenueProtected = 0)) ∧
    (∀ a : Richer.Answers,
      ((Richer.results a).revenueProtected ≠ 0 ↔
        (a.skipRevenueImpact = false ∧ a.revenueBand ≠ RevenueBand.unknown ∧
          a.priorityCx = true)) ∧
      0 ≤ (Richer.results a).revenueProtected ∧
      (¬ (a.skipRevenueImpact = false ∧ a.revenueBand ≠ RevenueBand.unknown ∧
          a.priorityCx = true) →
        Richer.annualRevenueInfluenced a = 0 ∧
          Richer.revenueProtectionPct a = 0 ∧
          (Richer.results a).revenueProtected = 0)) := by
  constructor
  · intro a
    have hres : (Banded.results a).revenueProtected = Banded.revenueProtected a := rfl
    have heq := banded_revenueProtected_eq a
    by_cases h : Banded.includeRevenue a
    · have hpos : 0 < Banded.revenueProtected a := by
        rw [heq, if_pos h]
        have := approxRevenue_pos a.revenueBand h.2.1
        positivity
      refine ⟨?_, ?_, ?_⟩
      · rw [hres]
        exact ⟨fun _ => h, fun _ => ne_of_gt hpos⟩
      · rw [hres]
        exact le_of_lt hpos
      · intro hc
        exact absurd h hc
    · have hz : Banded.revenueProtected a = 0 := by rw [heq, if_neg h]
      refine ⟨?_, ?_, ?_⟩
      · rw [hres, hz]
        exact ⟨fun hne => absurd rfl hne, fun hg => absurd hg h⟩
      · rw [hres, hz]
      · intro _
        refine ⟨?_, ?_, ?_⟩
        · rw [Banded.annualRevenueInfluenced, if_neg h]
        · rw [Banded.revenueProtectionPct, if_neg h]
        · rw [hres, hz]
  · intro a
    have hres : (Richer.results a).revenueProtected = Richer.revenueProtected a := rfl
    have heq := richer_revenueProtected_eq a
    by_cases h : Richer.includeRevenue a
    · have hpos : 0 < Richer.revenueProtected a := by
        rw [heq, if_pos h]
        have h1 := approxRevenue_pos a.revenueBand h.2.1
        have h2 := Richer.baseRevenuePct_pos a.revenueImpact
        positivity
      refine ⟨?_, ?_, ?_⟩
      · rw [hres]
        exact ⟨fun _ => h, fun _ => ne_of_gt hpos⟩
      · rw [hres]
        exact le_of_lt hpos
      · intro hc
        exact absurd h hc
    · have hz : Richer.revenueProtected a = 0 := by rw [heq, if_neg h]
      refine ⟨?_, ?_, ?_⟩
      · rw [hres, hz]
        exact ⟨fun hne => absurd rfl hne, fun hg => absurd hg h⟩
      · rw [hres, hz]
      · intro _
        refine ⟨?_, ?_, ?_⟩
        · rw [Richer.annualRevenueInfluenced, if_neg h]
        · rw [Richer.revenueProtectionPct, if_neg h]
        · rw [hres, hz]

/-- Witness for claim C2: with the revenue flag off (banded) and revenue
skipped (richer), every revenue quantity is exactly 0. -/
theorem claim_C2_witness :
    Banded.annualRevenueInfluenced sampleB = 0 ∧
    Banded.revenueProtectionPct sampleB = 0 ∧
    (Banded.results sampleB).revenueProtected = 0 ∧
    Richer.annualRevenueInfluenced sampleR = 0 ∧
    Richer.revenueProtectionPct sampleR = 0 ∧
    (Richer.results sampleR).revenueProtected = 0 := by
  obtain ⟨h1, h2, h3⟩ := (claim_C2_revenue_gating.1 sampleB).2.2
    (by simp [sampleB])
  obtain ⟨h4, h5, h6⟩ := (claim_C2_revenue_gating.2 sampleR).2.2
    (by simp [sampleR])
  exact ⟨h1, h2, h3, h4, h5, h6⟩

/-- Resolving the monthlyBenefit sentinel: the two nested guards of the
source collapse to a single guard on the annual benefit. -/
theorem payback_sentinel (cost tab : ℚ) :
    (if 0 < (if 0 < tab then tab / 12 else 0) then
        cost / (if 0 < tab then tab / 12 else 0)
      else 0) = if 0 < tab then cost / (tab / 12) else 0 := by
  by_cases h : 0 < tab
  · rw [if_pos h, if_pos h, if_pos (by positivity)]
  · rw [if_neg h, if_neg (lt_irrefl 0), if_neg h]

/-- The payback pipeline never reaches a division by zero: with every
division routed through `jsDiv` it returns exactly the guarded value. -/
theorem paybackMonthsChecked_eq (cost tab : ℚ) :
    paybackMonthsChecked cost tab =
      some (if 0 < tab then cost / (tab / 12) else 0) := by
  by_cases h : 0 < tab
  · have h12 : 0 < tab / 12 := by positivity
    rw [paybackMonthsChecked, if_pos h,
      show jsDiv tab 12 = some (tab / 12) by
        rw [jsDiv, if_neg (by norm_num : ¬(12:ℚ) = 0)]]
    show (if 0 < tab / 12 then jsDiv cost (tab / 12) else some 0) = _
    rw [if_pos h12, jsDiv, if_neg (ne_of_gt h12)]
    rw [if_pos h]
  · rw [paybackMonthsChecked, if_neg h]
    show (if (0:ℚ) < 0 then jsDiv cost 0 else some 0) = _
    rw [if_neg (lt_irrefl 0), if_neg h]

/-- Banded payback in closed form. -/
theorem banded_paybackMonths_formula (a : Banded.Answers) :
    Banded.paybackMonths a =
      if 0 < Banded.totalAnnualBenefit a then
        Banded.edgetierAnnualCost a / (Banded.totalAnnualBenefit a / 12)
      else 0 := by
  rw [Banded.paybackMonths, Banded.monthlyBenefit]
  exact payback_sentinel _ _

/-- Direct-numeric payback in closed form. -/
theorem direct_paybackMonths_formula (a : DirectNumeric.Answers) :
    DirectNumeric.paybackMonths a =
      if 0 < DirectNumeric.totalAnnualBenefit a then
        a.edgetierAnnualCost / (DirectNumeric.totalAnnualBenefit a / 12)
      else 0 := by
  rw [DirectNumeric.paybackMonths, DirectNumeric.monthlyBenefit]
  exact payback_sentinel _ _

/-- Richer payback in closed form. -/
theorem richer_paybackMonths_formula (a : Richer.Answers) :
    Richer.paybackMonths a =
      if 0 < Richer.totalAnnualBenefit a then
        Richer.edgetierAnnualCost a / (Richer.totalAnnualBenefit a / 12)
      else 0 := by
  rw [Richer.paybackMonths, Richer.monthlyBenefit]
  exact payback_sentinel _ _

/-- The banded investment rule of thumb only produces positive values. -/
theorem Banded.edgetierAnnualCost_pos (a : Banded.Answers) :
    0 < Banded.edgetierAnnualCost a := by
  rw [Banded.edgetierAnnualCost]
  split_ifs <;> norm_num

/-- Claim C4 (amended): in every variant, paybackMonths is 0 when the
total annual benefit is not positive, equals investment divided by
monthly benefit when it is, and is reached without any division by zero;
it is nonnegative whenever the investment cost is nonnegative (always, in
the banded variant), but a negative user-supplied investment cost gives a
negative payback. -/
theorem claim_C4_amended :
    (∀ cost tab : ℚ,
      paybackMonthsChecked cost tab =
        some (if 0 < tab then cost / (tab / 12) else 0)) ∧
    (∀ a : Banded.Answers,
      (Banded.results a).paybackMonths =
        (if 0 < Banded.totalAnnualBenefit a then
          Banded.edgetierAnnualCost a / (Banded.totalAnnualBenefit a / 12)
        else 0) ∧
      0 ≤ (Banded.results a).paybackMonths) ∧
    (∀ a : DirectNumeric.Answers,
      (DirectNumeric.results a).paybackMonths =
        (if 0 < DirectNumeric.totalAnnualBenefit a then
          a.edgetierAnnualCost / (DirectNumeric.totalAnnualBenefit a / 12)
        else 0) ∧
      (0 ≤ a.edgetierAnnualCost → 0 ≤ (DirectNumeric.results a).paybackMonths)) ∧
    (∀ a : Richer.Answers,
      (Richer.results a).paybackMonths =
        (if 0 < Richer.totalAnnualBenefit a then
          Richer.edgetierAnnualCost a / (Richer.totalAnnualBenefit a / 12)
        else 0) ∧
      (0 ≤ Richer.edgetierAnnualCost a → 0 ≤ (Richer.results a).paybackMonths)) := by
  refine ⟨paybackMonthsChecked_eq, ?_, ?_, ?_⟩
  · intro a
    have hf : (Banded.results a).paybackMonths = Banded.paybackMonths a := rfl
    constructor
    · rw [hf]
      exact banded_paybackMonths_formula a
    · rw [hf, banded_paybackMonths_formula a]
      split_ifs with h
      · have := Banded.edgetierAnnualCost_pos a
        positivity
      · exact le_rfl
  · intro a
    have hf : (DirectNumeric.results a).paybackMonths = DirectNumeric.paybackMonths a := rfl
    constructor
    · rw [hf]
      exact direct_paybackMonths_formula a
    · intro hc
      rw [hf, direct_paybackMonths_formula a]
      split_ifs with h
      · positivity
      · exact le_rfl
  · intro a
    have hf : (Richer.results a).paybackMonths = Richer.paybackMonths a := rfl
    constructor
    · rw [hf]
      exact richer_paybackMonths_formula a
    · intro hc
      rw [hf, richer_paybackMonths_formula a]
      split_ifs with h
      · positivity
      · exact le_rfl

/-- Witness for claim C4 at concrete inputs: a cost of 120000 against an
annual benefit of 240000 pays back in 6 months through the checked
pipeline, and the concrete sample records all give nonnegative payback. -/
theorem claim_C4_witness :
    paybackMonthsChecked 120000 240000 = some 6 ∧
    0 ≤ (Banded.results sampleB).paybackMonths ∧
    0 ≤ (DirectNumeric.results sampleD).paybackMonths ∧
    0 ≤ (Richer.results sampleR).paybackMonths := by
  refine ⟨?_, (claim_C4_amended.2.1 sampleB).2, ?_, ?_⟩
  · rw [claim_C4_amended.1 120000 240000]
    norm_num
  · exact (claim_C4_amended.2.2.1 sampleD).2 (by norm_num [sampleD])
  · exact (claim_C4_amended.2.2.2 sampleR).2
      (by norm_num [Richer.edgetierAnnualCost, Richer.baseLicense,
        Richer.rolloutMultiplier, Richer.numAgents, Richer.TEAM_SIZE_MAP,
        sampleR])

/-- Claim C4 as stated is false: with a negative user-supplied EdgeTier
cost (which the input boundary does not clamp) and a positive total
benefit, the direct-numeric variant reports a negative payback. -/
theorem claim_C4_counterexample :
    (DirectNumeric.results sampleDneg).paybackMonths < 0 := by
  have hf : (DirectNumeric.results sampleDneg).paybackMonths =
      DirectNumeric.paybackMonths sampleDneg := rfl
  have htab : DirectNumeric.totalAnnualBenefit sampleDneg = 232875/22 := by
    norm_num [DirectNumeric.totalAnnualBenefit, DirectNumeric.savingsAht,
      DirectNumeric.savingsQa, DirectNumeric.savingsDeflection,
      DirectNumeric.revenueProtected, jsOrZero,
      DirectNumeric.baselineHandlingCost, DirectNumeric.baselineHandlingHours,
      DirectNumeric.newHandlingCost, DirectNumeric.newHandlingHours,
      DirectNumeric.newAhtMins, DirectNumeric.baselineQaCost,
      DirectNumeric.newQaCost, DirectNumeric.baselineQaHours,
      DirectNumeric.newQaHours, DirectNumeric.qaHourlyCost,
      DirectNumeric.qaHourlyMultiplier, DirectNumeric.qaCoveragePct,
      DirectNumeric.qaTimePerContactMins, DirectNumeric.contactsAvoidedPerYear,
      DirectNumeric.costPerContactBaseline, DirectNumeric.ahtReductionPct,
      DirectNumeric.qaEfficiencyGainPct, DirectNumeric.contactDeflectionPct,
      DirectNumeric.revenueProtectionPct, DirectNumeric.assumedAhtReductionPct,
      DirectNumeric.assumedQaEfficiencyGainPct,
      DirectNumeric.assumedContactDeflectionPct,
      DirectNumeric.assumedRevenueProtectionPct,
      DirectNumeric.contactsPerYear, DirectNumeric.costPerAgentHour,
      WORKING_HOURS_PER_YEAR, sampleDneg]
  rw [hf, direct_paybackMonths_formula, htab,
    if_pos (by norm_num : (0:ℚ) < 232875/22)]
  norm_num [sampleDneg]

/-- Every complexity level has a positive average handle time. -/
theorem ahtMinsOf_pos (l : ComplexityLevel) : 0 < ahtMinsOf l := by
  cases l <;> norm_num [ahtMinsOf]

/-- The AHT table of the 1-5 slider is strictly increasing. -/
theorem ahtMinsOf_strictMono (lo hi : ComplexityLevel)
    (h : levelIdx lo < levelIdx hi) : ahtMinsOf lo < ahtMinsOf hi := by
  cases lo <;> cases hi <;> revert h <;> norm_num [levelIdx, ahtMinsOf]

theorem banded_ahtMins_pos (a : Banded.Answers) : 0 < Banded.ahtMins a :=
  ahtMinsOf_pos a.complexityLevel

/-- In the banded variant the effective AHT reduction percentage is
always strictly positive: the base values are 15/12/8 and the priority
factor is 1 or 0.3. -/
theorem banded_ahtReductionPct_pos (a : Banded.Answers) :
    0 < Banded.ahtReductionPct a := by
  rw [Banded.ahtReductionPct, Banded.ahtFactor]
  have hb : 0 < (Banded.AI_IMPROVEMENTS a.aiLevel).ahtReductionPct := by
    cases a.aiLevel <;> norm_num [Banded.AI_IMPROVEMENTS]
  split_ifs <;> nlinarith

theorem banded_ahtReductionPct_le (a : Banded.Answers) :
    Banded.ahtReductionPct a ≤ 15 := by
  rw [Banded.ahtReductionPct, Banded.ahtFactor]
  have hb1 : 0 < (Banded.AI_IMPROVEMENTS a.aiLevel).ahtReductionPct := by
    cases a.aiLevel <;> norm_num [Banded.AI_IMPROVEMENTS]
  have hb2 : (Banded.AI_IMPROVEMENTS a.aiLevel).ahtReductionPct ≤ 15 := by
    cases a.aiLevel <;> norm_num [Banded.AI_IMPROVEMENTS]
  split_ifs <;> nlinarith

theorem banded_newAhtMins_pos (a : Banded.Answers) : 0 < Banded.newAhtMins a := by
  rw [Banded.newAhtMins, jsOrZero_eq]
  have h1 := banded_ahtMins_pos a
  have h2 := banded_ahtReductionPct_le a
  exact mul_pos h1 (by linarith)

/-- Banded AHT savings in closed form: the baseline handling cost times
the effective reduction fraction. -/
theorem banded_savingsAht_eq (a : Banded.Answers) :
    Banded.savingsAht a =
      Banded.baselineHandlingCost a * (Banded.ahtReductionPct a / 100) := by
  rw [Banded.savingsAht, Banded.newHandlingCost, Banded.newHandlingHours,
    Banded.baselineHandlingCost, Banded.baselineHandlingHours,
    if_pos (banded_ahtMins_pos a), if_pos (banded_newAhtMins_pos a),
    Banded.newAhtMins, jsOrZero_eq]
  ring

theorem banded_savingsAht_pos (a : Banded.Answers)
    (h : 0 < Banded.baselineHandlingCost a) : 0 < Banded.savingsAht a := by
  rw [banded_savingsAht_eq]
  exact mul_pos h (div_pos (banded_ahtReductionPct_pos a) (by norm_num))

/-- With the QA priority off the banded QA savings vanish. -/
theorem banded_savingsQa_gated (a : Banded.Answers) (h : a.priorityQa = false) :
    Banded.savingsQa a = 0 := by
  rw [Banded.savingsQa, Banded.baselineQaCost, Banded.newQaCost,
    Banded.newQaHours, Banded.qaEfficiencyGainPct, Banded.qaFactor, h]
  simp [jsOrZero]

/-- With the deflection priority off the banded deflection savings
vanish. -/
theorem banded_savingsDeflection_gated (a : Banded.Answers)
    (h : a.priorityDeflection = false) : Banded.savingsDeflection a = 0 := by
  rw [Banded.savingsDeflection, Banded.contactsAvoidedPerYear,
    Banded.contactDeflectionPct, Banded.deflectionFactor, h]
  simp [jsOrZero]

theorem richer_ahtMins_pos (a : Richer.Answers) : 0 < Richer.ahtMins a :=
  ahtMinsOf_pos a.complexityLevel

theorem richer_ahtReductionPct_pos (a : Richer.Answers) :
    0 < Richer.ahtReductionPct a := by
  rw [Richer.ahtReductionPct, Richer.ahtFactor]
  have hb : 0 < (Richer.AI_IMPROVEMENTS a.aiMaturity).ahtReductionPct := by
    cases a.aiMaturity <;> norm_num [Richer.AI_IMPROVEMENTS]
  split_ifs <;> nlinarith

theorem richer_ahtReductionPct_le (a : Richer.Answers) :
    Richer.ahtReductionPct a ≤ 15 := by
  rw [Richer.ahtReductionPct, Richer.ahtFactor]
  have hb1 : 0 < (Richer.AI_IMPROVEMENTS a.aiMaturity).ahtReductionPct := by
    cases a.aiMaturity <;> norm_num [Richer.AI_IMPROVEMENTS]
  have hb2 : (Richer.AI_IMPROVEMENTS a.aiMaturity).ahtReductionPct ≤ 15 := by
    cases a.aiMaturity <;> norm_num [Richer.AI_IMPROVEMENTS]
  split_ifs <;> nlinarith

theorem richer_newAhtMins_pos (a : Richer.Answers) : 0 < Richer.newAhtMins a := by
  rw [Richer.newAhtMins, jsOrZero_eq]
  have h1 := richer_ahtMins_pos a
  have h2 := richer_ahtReductionPct_le a
  exact mul_pos h1 (by linarith)

/-- Richer AHT savings in closed form. -/
theorem richer_savingsAht_eq (a : Richer.Answers) :
    Richer.savingsAht a =
      Richer.baselineHandlingCost a * (Richer.ahtReductionPct a / 100) := by
  rw [Richer.savingsAht, Richer.newHandlingCost, Richer.newHandlingHours,
    Richer.baselineHandlingCost, Richer.baselineHandlingHours,
    if_pos (richer_ahtMins_pos a), if_pos (richer_newAhtMins_pos a),
    Richer.newAhtMins, jsOrZero_eq]
  ring

theorem richer_savingsAht_pos (a : Richer.Answers)
    (h : 0 < Richer.baselineHandlingCost a) : 0 < Richer.savingsAht a := by
  rw [richer_savingsAht_eq]
  exact mul_pos h (div_pos (richer_ahtReductionPct_pos a) (by norm_num))

theorem richer_savingsQa_gated (a : Richer.Answers) (h : a.priorityQa = false) :
    Richer.savingsQa a = 0 := by
  rw [Richer.savingsQa, Richer.baselineQaCost, Richer.newQaCost,
    Richer.newQaHours, Richer.qaEfficiencyGainPct, Richer.qaFactor, h]
  simp [jsOrZero]

theorem richer_savingsDeflection_gated (a : Richer.Answers)
    (h : a.priorityDeflection = false) : Richer.savingsDeflection a = 0 := by
  rw [Richer.savingsDeflection, Richer.contactsAvoidedPerYear,
    Richer.contactDeflectionPct, Richer.deflectionFactor, h]
  simp [jsOrZero]

/-- With the handling time toggle off, the direct-numeric variant applies
a zero reduction, unlike the banded variants. -/
theorem DirectNumeric.ahtReductionPct_off (a : DirectNumeric.Answers)
    (h : a.reduceAht = false) : DirectNumeric.ahtReductionPct a = 0 := by
  rw [DirectNumeric.ahtReductionPct, h]
  simp

theorem DirectNumeric.savingsAht_off (a : DirectNumeric.Answers)
    (h : a.reduceAht = false) : DirectNumeric.savingsAht a = 0 := by
  have hn : DirectNumeric.newAhtMins a = a.ahtMins := by
    rw [DirectNumeric.newAhtMins, DirectNumeric.ahtReductionPct_off a h]
    ring
  rw [DirectNumeric.savingsAht, DirectNumeric.newHandlingCost,
    DirectNumeric.newHandlingHours, hn, DirectNumeric.baselineHandlingCost,
    DirectNumeric.baselineHandlingHours]
  ring

theorem direct_savingsQa_gated (a : DirectNumeric.Answers)
    (h : a.reduceQa = false) : DirectNumeric.savingsQa a = 0 := by
  rw [DirectNumeric.savingsQa, DirectNumeric.baselineQaCost,
    DirectNumeric.newQaCost, DirectNumeric.newQaHours,
    DirectNumeric.qaEfficiencyGainPct, h]
  simp

theorem direct_savingsDeflection_gated (a : DirectNumeric.Answers)
    (h : a.reduceContacts = false) : DirectNumeric.savingsDeflection a = 0 := by
  rw [DirectNumeric.savingsDeflection, DirectNumeric.contactsAvoidedPerYear,
    DirectNumeric.contactDeflectionPct, h]
  simp

/-- Claim C3 (amended): in the two banded variants the effective
percentages are the automation maturity base percentages times the
priority factors (1 when on; 0 for QA and deflection when off, 0.3 for
AHT when off), QA and deflection savings vanish when their flag is off,
and AHT savings stay strictly positive whenever the baseline handling
cost is positive.  In the direct-numeric variant every off-toggle factor
is 0, including handling time, so AHT savings vanish there. -/
theorem claim_C3_amended :
    (∀ a : Banded.Answers,
      Banded.ahtReductionPct a =
        (Banded.AI_IMPROVEMENTS a.aiLevel).ahtReductionPct *
          (if a.priorityAht = true then 1 else 3/10) ∧
      Banded.qaEfficiencyGainPct a =
        (Banded.AI_IMPROVEMENTS a.aiLevel).qaEfficiencyGainPct *
          (if a.priorityQa = true then 1 else 0) ∧
      Banded.contactDeflectionPct a =
        (Banded.AI_IMPROVEMENTS a.aiLevel).contactDeflectionPct *
          (if a.priorityDeflection = true then 1 else 0) ∧
      (a.priorityQa = false → Banded.savingsQa a = 0) ∧
      (a.priorityDeflection = false → Banded.savingsDeflection a = 0) ∧
      (0 < Banded.baselineHandlingCost a → 0 < Banded.savingsAht a)) ∧
    (∀ a : Richer.Answers,
      Richer.ahtReductionPct a =
        (Richer.AI_IMPROVEMENTS a.aiMaturity).ahtReductionPct *
          (if a.priorityAht = true then 1 else 3/10) ∧
      Richer.qaEfficiencyGainPct a =
        (Richer.AI_IMPROVEMENTS a.aiMaturity).qaEfficiencyGainPct *
          (if a.priorityQa = true then 1 else 0) ∧
      Richer.contactDeflectionPct a =
        (Richer.AI_IMPROVEMENTS a.aiMaturity).contactDeflectionPct *
          (if a.priorityDeflection = true then 1 else 0) ∧
      (a.priorityQa = false → Richer.savingsQa a = 0) ∧
      (a.priorityDeflection = false → Richer.savingsDeflection a = 0) ∧
      (0 < Richer.baselineHandlingCost a → 0 < Richer.savingsAht a)) ∧
    (∀ a : DirectNumeric.Answers,
      (a.reduceAht = false → DirectNumeric.ahtReductionPct a = 0 ∧
        DirectNumeric.savingsAht a = 0) ∧
      (a.reduceQa = false → DirectNumeric.savingsQa a = 0) ∧
      (a.reduceContacts = false → DirectNumeric.savingsDeflection a = 0)) := by
  refine ⟨fun a => ⟨rfl, rfl, rfl, ?_, ?_, ?_⟩,
    fun a => ⟨rfl, rfl, rfl, ?_, ?_, ?_⟩, fun a => ⟨?_, ?_, ?_⟩⟩
  · exact banded_savingsQa_gated a
  · exact banded_savingsDeflection_gated a
  · exact banded_savingsAht_pos a
  · exact richer_savingsQa_gated a
  · exact richer_savingsDeflection_gated a
  · exact richer_savingsAht_pos a
  · exact fun h => ⟨DirectNumeric.ahtReductionPct_off a h,
      DirectNumeric.savingsAht_off a h⟩
  · exact direct_savingsQa_gated a
  · exact direct_savingsDeflection_gated a

/-- Witness for claim C3 at concrete records: QA and deflection savings
vanish with their flags off, AHT savings stay positive in the banded
variants, and every direct-numeric saving vanishes with its toggle off. -/
theorem claim_C3_witness :
    Banded.savingsQa sampleBoff = 0 ∧
    Banded.savingsDeflection sampleBoff = 0 ∧
    0 < Banded.savingsAht sampleB ∧
    Richer.savingsQa sampleRoff = 0 ∧
    Richer.savingsDeflection sampleRoff = 0 ∧
    0 < Richer.savingsAht sampleR ∧
    DirectNumeric.ahtReductionPct sampleDoff = 0 ∧
    DirectNumeric.savingsAht sampleDoff = 0 ∧
    DirectNumeric.savingsQa sampleDoff = 0 ∧
    DirectNumeric.savingsDeflection sampleDoff = 0 := by
  obtain ⟨hpct, hsav⟩ := (claim_C3_amended.2.2 sampleDoff).1 rfl
  refine ⟨(claim_C3_amended.1 sampleBoff).2.2.2.1 rfl,
    (claim_C3_amended.1 sampleBoff).2.2.2.2.1 rfl,
    (claim_C3_amended.1 sampleB).2.2.2.2.2 ?_,
    (claim_C3_amended.2.1 sampleRoff).2.2.2.1 rfl,
    (claim_C3_amended.2.1 sampleRoff).2.2.2.2.1 rfl,
    (claim_C3_amended.2.1 sampleR).2.2.2.2.2 ?_,
    hpct, hsav,
    (claim_C3_amended.2.2 sampleDoff).2.1 rfl,
    (claim_C3_amended.2.2 sampleDoff).2.2 rfl⟩
  · norm_num [Banded.baselineHandlingCost, Banded.baselineHandlingHours,
      Banded.contactsPerYear, Banded.contactsPerMonth, Banded.numAgents,
      Banded.contactsPerAgentPerDay, Banded.workingDaysPerMonth,
      Banded.ahtMins, Banded.costPerAgentHour, Banded.annualCostPerAgent,
      Banded.DEFAULT_COST_PER_AGENT, WORKING_HOURS_PER_YEAR, sampleB,
      Banded.TEAM_SIZE_MAP, Banded.CONTACTS_PER_AGENT_MAP, ahtMinsOf]
  · norm_num [Richer.baselineHandlingCost, Richer.baselineHandlingHours,
      Richer.contactsPerYear, Richer.contactsPerMonth, Richer.numAgents,
      Richer.contactsPerAgentPerDay, Richer.workingDaysPerMonth,
      Richer.ahtMins, Richer.costPerAgentHour, Richer.annualCostPerAgent,
      Richer.REGION_COST_MAP, WORKING_HOURS_PER_YEAR, sampleR,
      Richer.TEAM_SIZE_MAP, Richer.CONTACTS_PER_AGENT_MAP, ahtMinsOf]
    rw [if_neg (by decide : ¬ Richer.CostMode.benchmark = Richer.CostMode.known)]
    norm_num

/-- Claim C3 as stated is false: in the direct-numeric variant, turning
the handling time toggle off makes the effective AHT reduction exactly 0
(not a residual 0.3 factor), so the AHT savings vanish even though the
baseline handling cost is positive. -/
theorem claim_C3_counterexample :
    0 < DirectNumeric.baselineHandlingCost sampleD3 ∧
    DirectNumeric.ahtReductionPct sampleD3 = 0 ∧
    DirectNumeric.savingsAht sampleD3 = 0 := by
  refine ⟨?_, DirectNumeric.ahtReductionPct_off sampleD3 rfl,
    DirectNumeric.savingsAht_off sampleD3 rfl⟩
  norm_num [DirectNumeric.baselineHandlingCost,
    DirectNumeric.baselineHandlingHours, DirectNumeric.contactsPerYear,
    DirectNumeric.costPerAgentHour, WORKING_HOURS_PER_YEAR, sampleD3]

/-- The four-breakpoint chain of the richer variant agrees with the
five-breakpoint spec scheme when the two smallest tiers carry the same
value. -/
theorem Richer.baseLicense_eq_spec (a : Richer.Answers) :
    Richer.baseLicense a =
      specTierLookup 80000 80000 150000 250000 350000 (Richer.numAgents a) := by
  rw [Richer.baseLicense, specTierLookup]
  split_ifs <;> first | rfl | linarith

/-- Claim C5 (amended): the banded investment matches the ordered
breakpoint scheme with tiers 80000/120000/180000/250000/350000; the
richer auto investment matches the scheme with tiers
80000/80000/150000/250000/350000 times the rollout multiplier; the
richer custom investment uses the supplied value directly, with no
clamping. -/
theorem claim_C5_amended :
    (∀ a : Banded.Answers,
      Banded.edgetierAnnualCost a =
        specTierLookup 80000 120000 180000 250000 350000 (Banded.numAgents a)) ∧
    (∀ a : Richer.Answers, a.investmentMode = Richer.InvestmentMode.auto →
      Richer.edgetierAnnualCost a =
        specTierLookup 80000 80000 150000 250000 350000 (Richer.numAgents a) *
          Richer.rolloutMultiplier a.rolloutScope) ∧
    (∀ a : Richer.Answers, a.investmentMode = Richer.InvestmentMode.custom →
      Richer.edgetierAnnualCost a = a.customEdgetierCost) := by
  refine ⟨fun a => rfl, ?_, ?_⟩
  · intro a h
    rw [Richer.edgetierAnnualCost, if_pos h, Richer.baseLicense_eq_spec]
  · intro a h
    rw [Richer.edgetierAnnualCost, if_neg]
    rw [h]
    decide

/-- Witness for claim C5 at concrete records in each investment mode. -/
theorem claim_C5_witness :
    Banded.edgetierAnnualCost sampleB =
      specTierLookup 80000 120000 180000 250000 350000 (Banded.numAgents sampleB) ∧
    Richer.edgetierAnnualCost sampleR =
      specTierLookup 80000 80000 150000 250000 350000 (Richer.numAgents sampleR) *
        Richer.rolloutMultiplier sampleR.rolloutScope ∧
    Richer.edgetierAnnualCost sampleRcustom = sampleRcustom.customEdgetierCost :=
  ⟨claim_C5_amended.1 sampleB, claim_C5_amended.2.1 sampleR rfl,
   claim_C5_amended.2.2 sampleRcustom rfl⟩

/-- Claim C5 as stated is false: in custom mode a supplied -100 is used
as the investment cost unchanged, not clamped to 0. -/
theorem claim_C5_counterexample :
    Richer.edgetierAnnualCost sampleRcustomNeg = -100 ∧
    Richer.edgetierAnnualCost sampleRcustomNeg ≠ max 0 (-100 : ℚ) := by
  have h : Richer.edgetierAnnualCost sampleRcustomNeg = -100 := by
    rw [Richer.edgetierAnnualCost, if_neg (by decide)]
    rfl
  refine ⟨h, ?_⟩
  rw [h, show max (0:ℚ) (-100) = 0 by norm_num]
  norm_num

/-- Claim C8: cost resolution in the richer variant — a known strictly
positive direct value is used exactly as supplied; a known nonpositive
value or benchmark mode resolves through the region table, whose UK/IE
entry (the fallback of the source lookup) is 50000. -/
theorem claim_C8_cost_resolution :
    ∀ a : Richer.Answers,
      (a.costMode = Richer.CostMode.known → 0 < a.knownCostPerAgent →
        Richer.annualCostPerAgent a = a.knownCostPerAgent) ∧
      (a.costMode = Richer.CostMode.known → a.knownCostPerAgent ≤ 0 →
        Richer.annualCostPerAgent a = Richer.REGION_COST_MAP a.regionBand) ∧
      (a.costMode = Richer.CostMode.benchmark →
        Richer.annualCostPerAgent a = Richer.REGION_COST_MAP a.regionBand) ∧
      Richer.REGION_COST_MAP Richer.RegionBand.UK_IE_NORDICS_ANZ = 50000 := by
  intro a
  refine ⟨?_, ?_, ?_, rfl⟩
  · intro h1 h2
    rw [Richer.annualCostPerAgent, if_pos ⟨h1, h2⟩]
  · intro h1 h2
    rw [Richer.annualCostPerAgent, if_neg]
    rintro ⟨-, hp⟩
    linarith
  · intro h1
    rw [Richer.annualCostPerAgent, if_neg]
    rintro ⟨hk, -⟩
    rw [h1] at hk
    exact absurd hk (by decide)

/-- Witness for claim C8: known positive cost 45000 is used directly,
known zero cost and benchmark mode both resolve to the UK/IE benchmark. -/
theorem claim_C8_witness :
    Richer.annualCostPerAgent sampleRknown = 45000 ∧
    Richer.annualCostPerAgent sampleRknownZero = 50000 ∧
    Richer.annualCostPerAgent sampleR = 50000 := by
  refine ⟨?_, ?_, ?_⟩
  · rw [(claim_C8_cost_resolution sampleRknown).1 rfl (by norm_num [sampleRknown])]
    rfl
  · rw [(claim_C8_cost_resolution sampleRknownZero).2.1 rfl
      (by norm_num [sampleRknownZero])]
    rfl
  · rw [(claim_C8_cost_resolution sampleR).2.2.1 rfl]
    rfl

/-- Under custom investment mode the investment cost ignores the rollout
scope entirely. -/
theorem Richer.results_setRollout (a : Richer.Answers) (s : Richer.RolloutScope)
    (h : a.investmentMode = Richer.InvestmentMode.custom) :
    Richer.results (Richer.setRolloutScope a s) = Richer.results a := by
  have hm : (Richer.setRolloutScope a s).investmentMode = a.investmentMode := rfl
  have hc : Richer.edgetierAnnualCost (Richer.setRolloutScope a s) =
      Richer.edgetierAnnualCost a := by
    rw [Richer.edgetierAnnualCost, Richer.edgetierAnnualCost, hm, h,
      if_neg (by decide), if_neg (by decide)]
    rfl
  have hng : Richer.netGain (Richer.setRolloutScope a s) = Richer.netGain a := by
    rw [Richer.netGain, Richer.netGain, hc]
    rfl
  have hroi : Richer.roiPct (Richer.setRolloutScope a s) = Richer.roiPct a := by
    rw [Richer.roiPct, Richer.roiPct, hc, hng]
  have hpb : Richer.paybackMonths (Richer.setRolloutScope a s) =
      Richer.paybackMonths a := by
    rw [Richer.paybackMonths, Richer.paybackMonths, hc]
    rfl
  rw [Richer.results, Richer.results]
  congr 1

/-- Under auto investment mode the results ignore the custom cost
entirely. -/
theorem Richer.results_setCustomCost (a : Richer.Answers) (c : ℚ)
    (h : a.investmentMode = Richer.InvestmentMode.auto) :
    Richer.results (Richer.setCustomCost a c) = Richer.results a := by
  have hm : (Richer.setCustomCost a c).investmentMode = a.investmentMode := rfl
  have hc : Richer.edgetierAnnualCost (Richer.setCustomCost a c) =
      Richer.edgetierAnnualCost a := by
    rw [Richer.edgetierAnnualCost, Richer.edgetierAnnualCost, hm, h,
      if_pos rfl, if_pos rfl]
    rfl
  have hng : Richer.netGain (Richer.setCustomCost a c) = Richer.netGain a := by
    rw [Richer.netGain, Richer.netGain, hc]
    rfl
  have hroi : Richer.roiPct (Richer.setCustomCost a c) = Richer.roiPct a := by
    rw [Richer.roiPct, Richer.roiPct, hc, hng]
  have hpb : Richer.paybackMonths (Richer.setCustomCost a c) =
      Richer.paybackMonths a := by
    rw [Richer.paybackMonths, Richer.paybackMonths, hc]
    rfl
  rw [Richer.results, Richer.results]
  congr 1

/-- Claim C10: in the richer variant, rollout scope is irrelevant under
custom investment mode and the custom cost is irrelevant under auto
investment mode — the full result records coincide. -/
theorem claim_C10_noninterference :
    (∀ (a : Richer.Answers) (s₁ s₂ : Richer.RolloutScope),
      a.investmentMode = Richer.InvestmentMode.custom →
      Richer.results (Richer.setRolloutScope a s₁) =
        Richer.results (Richer.setRolloutScope a s₂)) ∧
    (∀ (a : Richer.Answers) (c₁ c₂ : ℚ),
      a.investmentMode = Richer.InvestmentMode.auto →
      Richer.results (Richer.setCustomCost a c₁) =
        Richer.results (Richer.setCustomCost a c₂)) := by
  constructor
  · intro a s₁ s₂ h
    rw [Richer.results_setRollout a s₁ h, Richer.results_setRollout a s₂ h]
  · intro a c₁ c₂ h
    rw [Richer.results_setCustomCost a c₁ h, Richer.results_setCustomCost a c₂ h]

/-- Witness for claim C10 at concrete records: single versus multi
rollout under custom mode, and 0 versus 999999 custom cost under auto
mode. -/
theorem claim_C10_witness :
    Richer.results (Richer.setRolloutScope sampleRcustom Richer.RolloutScope.single) =
      Richer.results (Richer.setRolloutScope sampleRcustom Richer.RolloutScope.multi) ∧
    Richer.results (Richer.setCustomCost sampleR 0) =
      Richer.results (Richer.setCustomCost sampleR 999999) :=
  ⟨claim_C10_noninterference.1 sampleRcustom Richer.RolloutScope.single
     Richer.RolloutScope.multi rfl,
   claim_C10_noninterference.2 sampleR 0 999999 rfl⟩

/-- A division guarded by positivity of its own divisor never reports a
division by zero. -/
theorem guardedDiv_eq (x y : ℚ) :
    (if 0 < y then jsDiv x y else some 0) = some (if 0 < y then x / y else 0) := by
  split_ifs with h
  · rw [jsDiv, if_neg (ne_of_gt h)]
  · rfl

/-- Division by the constant 60 never reports a division by zero. -/
theorem guardedDiv60 (c : Prop) [Decidable c] (x : ℚ) :
    (if c then jsDiv x 60 else some 0) = some (if c then x / 60 else 0) := by
  split_ifs
  · rw [jsDiv, if_neg (by norm_num)]
  · rfl

/-- Division by the constant 12 never reports a division by zero. -/
theorem guardedDiv12 (c : Prop) [Decidable c] (x : ℚ) :
    (if c then jsDiv x 12 else some 0) = some (if c then x / 12 else 0) := by
  split_ifs
  · rw [jsDiv, if_neg (by norm_num)]
  · rfl

/-- An if whose branches are both some commutes with some. -/
theorem ite_some_some (c : Prop) [Decidable c] (u v : ℚ) :
    (if c then some u else some v) = some (if c then u else v) :=
  (apply_ite some c u v).symm

theorem jsDiv_sixty (x : ℚ) : jsDiv x 60 = some (x / 60) := by
  rw [jsDiv, if_neg (by norm_num)]

theorem jsDiv_hundred (x : ℚ) : jsDiv x 100 = some (x / 100) := by
  rw [jsDiv, if_neg (by norm_num)]

/-- The ROI ratio guarded by positivity of the investment cost never
reports a division by zero. -/
theorem guardedRoi_eq (x y : ℚ) :
    (if 0 < y then (jsDiv x y).map (fun r => r * 100) else some 0) =
      some (if 0 < y then x / y * 100 else 0) := by
  split_ifs with h
  · rw [jsDiv, if_neg (ne_of_gt h)]
    rfl
  · rfl

/-- Every division the direct-numeric engine performs is guarded: the
checked pipeline returns exactly the plain evaluation, never a
division-by-zero report. -/
theorem DirectNumeric.resultsOpt_eq (a : DirectNumeric.Answers) :
    DirectNumeric.resultsOpt a = some (DirectNumeric.results a) := by
  rw [DirectNumeric.resultsOpt]
  simp only [guardedDiv_eq, guardedDiv60, guardedDiv12, jsDiv_sixty,
    jsDiv_hundred, guardedRoi_eq, ite_some_some, Option.some_bind]
  rfl

/-- Claim C9: when the yearly contact volume is zero (contactsPerMonth 0
in the direct-numeric variant), the baseline cost per contact and the
deflection savings are 0, and the checked pipeline confirms that no
division by zero is reached anywhere in the result. -/
theorem claim_C9_zero_volume :
    ∀ a : DirectNumeric.Answers, DirectNumeric.contactsPerYear a = 0 →
      (DirectNumeric.results a).costPerContactBaseline = 0 ∧
      (DirectNumeric.results a).savingsDeflection = 0 ∧
      DirectNumeric.resultsOpt a = some (DirectNumeric.results a) := by
  intro a h
  have h2 : DirectNumeric.costPerContactBaseline a = 0 := by
    rw [DirectNumeric.costPerContactBaseline, if_neg]
    rw [h]
    exact lt_irrefl 0
  refine ⟨h2, ?_, DirectNumeric.resultsOpt_eq a⟩
  show DirectNumeric.savingsDeflection a = 0
  rw [DirectNumeric.savingsDeflection, h2, mul_zero]

/-- Witness for claim C9 at a concrete record with zero monthly
contacts. -/
theorem claim_C9_witness :
    (DirectNumeric.results sampleDzero).costPerContactBaseline = 0 ∧
    (DirectNumeric.results sampleDzero).savingsDeflection = 0 ∧
    DirectNumeric.resultsOpt sampleDzero = some (DirectNumeric.results sampleDzero) :=
  claim_C9_zero_volume sampleDzero
    (by norm_num [DirectNumeric.contactsPerYear, sampleDzero])

theorem banded_teamSize_pos (b : Banded.TeamSizeBand) :
    0 < Banded.TEAM_SIZE_MAP b := by
  cases b <;> norm_num [Banded.TEAM_SIZE_MAP]

theorem banded_contactsPerAgent_pos (c : Banded.ContactVolumeBand) :
    0 < Banded.CONTACTS_PER_AGENT_MAP c := by
  cases c <;> norm_num [Banded.CONTACTS_PER_AGENT_MAP]

/-- Every banded answer has a strictly positive yearly contact volume:
both band tables are positive and so are the day and month constants. -/
theorem banded_contactsPerYear_pos (a : Banded.Answers) :
    0 < Banded.contactsPerYear a := by
  have h1 := banded_teamSize_pos a.teamSizeBand
  have h2 := banded_contactsPerAgent_pos a.contactVolumeBand
  rw [Banded.contactsPerYear, Banded.contactsPerMonth, Banded.numAgents,
    Banded.contactsPerAgentPerDay, Banded.workingDaysPerMonth]
  exact mul_pos (mul_pos (mul_pos h1 h2) (by norm_num)) (by norm_num)

theorem banded_costPerAgentHour_pos : 0 < Banded.costPerAgentHour := by
  rw [Banded.costPerAgentHour, if_pos (by norm_num [WORKING_HOURS_PER_YEAR])]
  norm_num [Banded.annualCostPerAgent, Banded.DEFAULT_COST_PER_AGENT,
    WORKING_HOURS_PER_YEAR]

/-- Baseline handling cost in closed form (the AHT guard always holds). -/
theorem banded_baselineHandlingCost_eq (a : Banded.Answers) :
    Banded.baselineHandlingCost a =
      Banded.contactsPerYear a * (Banded.ahtMins a / 60) *
        Banded.costPerAgentHour := by
  rw [Banded.baselineHandlingCost, Banded.baselineHandlingHours,
    if_pos (banded_ahtMins_pos a)]

/-- Baseline cost per contact in closed form: the yearly volume cancels. -/
theorem banded_costPerContactBaseline_eq (a : Banded.Answers) :
    Banded.costPerContactBaseline a =
      (Banded.ahtMins a / 60) * Banded.costPerAgentHour := by
  rw [Banded.costPerContactBaseline, if_pos (banded_contactsPerYear_pos a),
    banded_baselineHandlingCost_eq]
  have h := (banded_contactsPerYear_pos a).ne'
  field_simp
  ring

theorem banded_contactDeflectionPct_nonneg (a : Banded.Answers) :
    0 ≤ Banded.contactDeflectionPct a := by
  rw [Banded.contactDeflectionPct, Banded.deflectionFactor]
  have hb : 0 ≤ (Banded.AI_IMPROVEMENTS a.aiLevel).contactDeflectionPct := by
    cases a.aiLevel <;> norm_num [Banded.AI_IMPROVEMENTS]
  split_ifs <;> nlinarith

/-- Deflection savings in closed form. -/
theorem banded_savingsDeflection_eq (a : Banded.Answers) :
    Banded.savingsDeflection a =
      Banded.contactsPerYear a * (Banded.contactDeflectionPct a / 100) *
        ((Banded.ahtMins a / 60) * Banded.costPerAgentHour) := by
  rw [Banded.savingsDeflection, Banded.contactsAvoidedPerYear, jsOrZero_eq,
    banded_costPerContactBaseline_eq]

/-- Total annual benefit with the NaN-guards spelled away. -/
theorem banded_totalAnnualBenefit_eq (a : Banded.Answers) :
    Banded.totalAnnualBenefit a =
      Banded.savingsAht a + Banded.savingsQa a + Banded.savingsDeflection a +
        Banded.revenueProtected a := by
  rw [Banded.totalAnnualBenefit, jsOrZero_eq, jsOrZero_eq, jsOrZero_eq,
    jsOrZero_eq]

theorem banded_contactsPerYear_setComplexity (a : Banded.Answers)
    (l : ComplexityLevel) :
    Banded.contactsPerYear (Banded.setComplexity a l) =
      Banded.contactsPerYear a := rfl

theorem banded_ahtMins_setComplexity (a : Banded.Answers) (l : ComplexityLevel) :
    Banded.ahtMins (Banded.setComplexity a l) = ahtMinsOf l := rfl

theorem banded_ahtReductionPct_setComplexity (a : Banded.Answers)
    (l : ComplexityLevel) :
    Banded.ahtReductionPct (Banded.setComplexity a l) =
      Banded.ahtReductionPct a := rfl

theorem banded_contactDeflectionPct_setComplexity (a : Banded.Answers)
    (l : ComplexityLevel) :
    Banded.contactDeflectionPct (Banded.setComplexity a l) =
      Banded.contactDeflectionPct a := rfl

theorem banded_savingsQa_setComplexity (a : Banded.Answers)
    (l : ComplexityLevel) :
    Banded.savingsQa (Banded.setComplexity a l) = Banded.savingsQa a := rfl

theorem banded_revenueProtected_setComplexity (a : Banded.Answers)
    (l : ComplexityLevel) :
    Banded.revenueProtected (Banded.setComplexity a l) =
      Banded.revenueProtected a := rfl

/-- Monotonicity of the banded pipeline in the complexity level. -/
theorem banded_complexity_mono (a : Banded.Answers) (lo hi : ComplexityLevel)
    (h : levelIdx lo < levelIdx hi) :
    Banded.baselineHandlingCost (Banded.setComplexity a lo) <
      Banded.baselineHandlingCost (Banded.setComplexity a hi) ∧
    Banded.savingsAht (Banded.setComplexity a lo) <
      Banded.savingsAht (Banded.setComplexity a hi) ∧
    Banded.totalAnnualBenefit (Banded.setComplexity a lo) <
      Banded.totalAnnualBenefit (Banded.setComplexity a hi) := by
  have hAB := ahtMinsOf_strictMono lo hi h
  have hcY := banded_contactsPerYear_pos a
  have hcph := banded_costPerAgentHour_pos
  have hKey := mul_pos (mul_pos hcY hcph) (sub_pos.2 hAB)
  have hbhc : ∀ l, Banded.baselineHandlingCost (Banded.setComplexity a l) =
      Banded.contactsPerYear a * (ahtMinsOf l / 60) * Banded.costPerAgentHour := by
    intro l
    rw [banded_baselineHandlingCost_eq, banded_contactsPerYear_setComplexity,
      banded_ahtMins_setComplexity]
  have h1 : Banded.baselineHandlingCost (Banded.setComplexity a lo) <
      Banded.baselineHandlingCost (Banded.setComplexity a hi) := by
    rw [hbhc, hbhc]
    nlinarith [hKey]
  have h2 : Banded.savingsAht (Banded.setComplexity a lo) <
      Banded.savingsAht (Banded.setComplexity a hi) := by
    rw [banded_savingsAht_eq, banded_savingsAht_eq,
      banded_ahtReductionPct_setComplexity, banded_ahtReductionPct_setComplexity]
    exact mul_lt_mul_of_pos_right h1
      (div_pos (banded_ahtReductionPct_pos a) (by norm_num))
  have hsd : ∀ l, Banded.savingsDeflection (Banded.setComplexity a l) =
      Banded.contactsPerYear a * (Banded.contactDeflectionPct a / 100) *
        ((ahtMinsOf l / 60) * Banded.costPerAgentHour) := by
    intro l
    rw [banded_savingsDeflection_eq, banded_contactsPerYear_setComplexity,
      banded_contactDeflectionPct_setComplexity, banded_ahtMins_setComplexity]
  have h3 : Banded.savingsDeflection (Banded.setComplexity a lo) ≤
      Banded.savingsDeflection (Banded.setComplexity a hi) := by
    rw [hsd, hsd]
    have step : (ahtMinsOf lo / 60) * Banded.costPerAgentHour ≤
        (ahtMinsOf hi / 60) * Banded.costPerAgentHour := by
      nlinarith [mul_pos hcph (sub_pos.2 hAB)]
    exact mul_le_mul_of_nonneg_left step
      (mul_nonneg (le_of_lt hcY)
        (div_nonneg (banded_contactDeflectionPct_nonneg a) (by norm_num)))
  refine ⟨h1, h2, ?_⟩
  rw [banded_totalAnnualBenefit_eq, banded_totalAnnualBenefit_eq,
    banded_savingsQa_setComplexity, banded_savingsQa_setComplexity,
    banded_revenueProtected_setComplexity, banded_revenueProtected_setComplexity]
  linarith

theorem richer_teamSize_pos (b : Richer.TeamSizeBand) :
    0 < Richer.TEAM_SIZE_MAP b := by
  cases b <;> norm_num [Richer.TEAM_SIZE_MAP]

theorem richer_contactsPerAgent_pos (c : Richer.ContactVolumeBand) :
    0 < Richer.CONTACTS_PER_AGENT_MAP c := by
  cases c <;> norm_num [Richer.CONTACTS_PER_AGENT_MAP]

theorem richer_contactsPerYear_pos (a : Richer.Answers) :
    0 < Richer.contactsPerYear a := by
  have h1 := richer_teamSize_pos a.teamSizeBand
  have h2 := richer_contactsPerAgent_pos a.contactVolumeBand
  rw [Richer.contactsPerYear, Richer.contactsPerMonth, Richer.numAgents,
    Richer.contactsPerAgentPerDay, Richer.workingDaysPerMonth]
  exact mul_pos (mul_pos (mul_pos h1 h2) (by norm_num)) (by norm_num)

/-- Whichever branch cost resolution takes, the annual cost per agent is
strictly positive: the known branch requires positivity and every region
benchmark is positive. -/
theorem Richer.annualCostPerAgent_pos (a : Richer.Answers) :
    0 < Richer.annualCostPerAgent a := by
  rw [Richer.annualCostPerAgent]
  split_ifs with h
  · exact h.2
  · cases hr : a.regionBand <;> norm_num [Richer.REGION_COST_MAP]

theorem richer_costPerAgentHour_pos (a : Richer.Answers) :
    0 < Richer.costPerAgentHour a := by
  rw [Richer.costPerAgentHour, if_pos (by norm_num [WORKING_HOURS_PER_YEAR])]
  exact div_pos (Richer.annualCostPerAgent_pos a)
    (by norm_num [WORKING_HOURS_PER_YEAR])

theorem richer_baselineHandlingCost_eq (a : Richer.Answers) :
    Richer.baselineHandlingCost a =
      Richer.contactsPerYear a * (Richer.ahtMins a / 60) *
        Richer.costPerAgentHour a := by
  rw [Richer.baselineHandlingCost, Richer.baselineHandlingHours,
    if_pos (richer_ahtMins_pos a)]

theorem richer_costPerContactBaseline_eq (a : Richer.Answers) :
    Richer.costPerContactBaseline a =
      (Richer.ahtMins a / 60) * Richer.costPerAgentHour a := by
  rw [Richer.costPerContactBaseline, if_pos (richer_contactsPerYear_pos a),
    richer_baselineHandlingCost_eq]
  have h := (richer_contactsPerYear_pos a).ne'
  field_simp
  ring

theorem richer_contactDeflectionPct_nonneg (a : Richer.Answers) :
    0 ≤ Richer.contactDeflectionPct a := by
  rw [Richer.contactDeflectionPct, Richer.deflectionFactor]
  have hb : 0 ≤ (Richer.AI_IMPROVEMENTS a.aiMaturity).contactDeflectionPct := by
    cases a.aiMaturity <;> norm_num [Richer.AI_IMPROVEMENTS]
  split_ifs <;> nlinarith

theorem richer_savingsDeflection_eq (a : Richer.Answers) :
    Richer.savingsDeflection a =
      Richer.contactsPerYear a * (Richer.contactDeflectionPct a / 100) *
        ((Richer.ahtMins a / 60) * Richer.costPerAgentHour a) := by
  rw [Richer.savingsDeflection, Richer.contactsAvoidedPerYear, jsOrZero_eq,
    richer_costPerContactBaseline_eq]

theorem richer_totalAnnualBenefit_eq (a : Richer.Answers) :
    Richer.totalAnnualBenefit a =
      Richer.savingsAht a + Richer.savingsQa a + Richer.savingsDeflection a +
        Richer.revenueProtected a := by
  rw [Richer.totalAnnualBenefit, jsOrZero_eq, jsOrZero_eq, jsOrZero_eq,
    jsOrZero_eq]

theorem richer_contactsPerYear_setComplexity (a : Richer.Answers)
    (l : ComplexityLevel) :
    Richer.contactsPerYear (Richer.setComplexity a l) =
      Richer.contactsPerYear a := rfl

theorem Richer.costPerAgentHour_setComplexity (a : Richer.Answers)
    (l : ComplexityLevel) :
    Richer.costPerAgentHour (Richer.setComplexity a l) =
      Richer.costPerAgentHour a := rfl

theorem richer_ahtMins_setComplexity (a : Richer.Answers) (l : ComplexityLevel) :
    Richer.ahtMins (Richer.setComplexity a l) = ahtMinsOf l := rfl

theorem richer_ahtReductionPct_setComplexity (a : Richer.Answers)
    (l : ComplexityLevel) :
    Richer.ahtReductionPct (Richer.setComplexity a l) =
      Richer.ahtReductionPct a := rfl

theorem richer_contactDeflectionPct_setComplexity (a : Richer.Answers)
    (l : ComplexityLevel) :
    Richer.contactDeflectionPct (Richer.setComplexity a l) =
      Richer.contactDeflectionPct a := rfl

theorem richer_savingsQa_setComplexity (a : Richer.Answers)
    (l : ComplexityLevel) :
    Richer.savingsQa (Richer.setComplexity a l) = Richer.savingsQa a := rfl

theorem richer_revenueProtected_setComplexity (a : Richer.Answers)
    (l : ComplexityLevel) :
    Richer.revenueProtected (Richer.setComplexity a l) =
      Richer.revenueProtected a := rfl

/-- Monotonicity of the richer pipeline in the complexity level. -/
theorem richer_complexity_mono (a : Richer.Answers) (lo hi : ComplexityLevel)
    (h : levelIdx lo < levelIdx hi) :
    Richer.baselineHandlingCost (Richer.setComplexity a lo) <
      Richer.baselineHandlingCost (Richer.setComplexity a hi) ∧
    Richer.savingsAht (Richer.setComplexity a lo) <
      Richer.savingsAht (Richer.setComplexity a hi) ∧
    Richer.totalAnnualBenefit (Richer.setComplexity a lo) <
      Richer.totalAnnualBenefit (Richer.setComplexity a hi) := by
  have hAB := ahtMinsOf_strictMono lo hi h
  have hcY := richer_contactsPerYear_pos a
  have hcph := richer_costPerAgentHour_pos a
  have hKey := mul_pos (mul_pos hcY hcph) (sub_pos.2 hAB)
  have hbhc : ∀ l, Richer.baselineHandlingCost (Richer.setComplexity a l) =
      Richer.contactsPerYear a * (ahtMinsOf l / 60) *
        Richer.costPerAgentHour a := by
    intro l
    rw [richer_baselineHandlingCost_eq, richer_contactsPerYear_setComplexity,
      richer_ahtMins_setComplexity, Richer.costPerAgentHour_setComplexity]
  have h1 : Richer.baselineHandlingCost (Richer.setComplexity a lo) <
      Richer.baselineHandlingCost (Richer.setComplexity a hi) := by
    rw [hbhc, hbhc]
    nlinarith [hKey]
  have h2 : Richer.savingsAht (Richer.setComplexity a lo) <
      Richer.savingsAht (Richer.setComplexity a hi) := by
    rw [richer_savingsAht_eq, richer_savingsAht_eq,
      richer_ahtReductionPct_setComplexity, richer_ahtReductionPct_setComplexity]
    exact mul_lt_mul_of_pos_right h1
      (div_pos (richer_ahtReductionPct_pos a) (by norm_num))
  have hsd : ∀ l, Richer.savingsDeflection (Richer.setComplexity a l) =
      Richer.contactsPerYear a * (Richer.contactDeflectionPct a / 100) *
        ((ahtMinsOf l / 60) * Richer.costPerAgentHour a) := by
    intro l
    rw [richer_savingsDeflection_eq, richer_contactsPerYear_setComplexity,
      richer_contactDeflectionPct_setComplexity, richer_ahtMins_setComplexity,
      Richer.costPerAgentHour_setComplexity]
  have h3 : Richer.savingsDeflection (Richer.setComplexity a lo) ≤
      Richer.savingsDeflection (Richer.setComplexity a hi) := by
    rw [hsd, hsd]
    have step : (ahtMinsOf lo / 60) * Richer.costPerAgentHour a ≤
        (ahtMinsOf hi / 60) * Richer.costPerAgentHour a := by
      nlinarith [mul_pos hcph (sub_pos.2 hAB)]
    exact mul_le_mul_of_nonneg_left step
      (mul_nonneg (le_of_lt hcY)
        (div_nonneg (richer_contactDeflectionPct_nonneg a) (by norm_num)))
  refine ⟨h1, h2, ?_⟩
  rw [richer_totalAnnualBenefit_eq, richer_totalAnnualBenefit_eq,
    richer_savingsQa_setComplexity, richer_savingsQa_setComplexity,
    richer_revenueProtected_setComplexity, richer_revenueProtected_setComplexity]
  linarith

/-- Claim C6: in both banded variants, replacing the complexity level by
any strictly higher one while keeping every other answer fixed strictly
increases the baseline handling cost, the AHT savings, and the total
annual benefit. -/
theorem claim_C6_monotonicity :
    (∀ (a : Banded.Answers) (lo hi : ComplexityLevel),
      levelIdx lo < levelIdx hi →
      Banded.baselineHandlingCost (Banded.setComplexity a lo) <
        Banded.baselineHandlingCost (Banded.setComplexity a hi) ∧
      Banded.savingsAht (Banded.setComplexity a lo) <
        Banded.savingsAht (Banded.setComplexity a hi) ∧
      Banded.totalAnnualBenefit (Banded.setComplexity a lo) <
        Banded.totalAnnualBenefit (Banded.setComplexity a hi)) ∧
    (∀ (a : Richer.Answers) (lo hi : ComplexityLevel),
      levelIdx lo < levelIdx hi →
      Richer.baselineHandlingCost (Richer.setComplexity a lo) <
        Richer.baselineHandlingCost (Richer.setComplexity a hi) ∧
      Richer.savingsAht (Richer.setComplexity a lo) <
        Richer.savingsAht (Richer.setComplexity a hi) ∧
      Richer.totalAnnualBenefit (Richer.setComplexity a lo) <
        Richer.totalAnnualBenefit (Richer.setComplexity a hi)) :=
  ⟨banded_complexity_mono, richer_complexity_mono⟩

/-- Witness for claim C6: moving the concrete default records from level
2 to level 4 strictly increases the total annual benefit. -/
theorem claim_C6_witness :
    Banded.totalAnnualBenefit (Banded.setComplexity sampleB ComplexityLevel.l2) <
      Banded.totalAnnualBenefit (Banded.setComplexity sampleB ComplexityLevel.l4) ∧
    Richer.totalAnnualBenefit (Richer.setComplexity sampleR ComplexityLevel.l2) <
      Richer.totalAnnualBenefit (Richer.setComplexity sampleR ComplexityLevel.l4) :=
  ⟨(claim_C6_monotonicity.1 sampleB ComplexityLevel.l2 ComplexityLevel.l4
      (by norm_num [levelIdx])).2.2,
   (claim_C6_monotonicity.2 sampleR ComplexityLevel.l2 ComplexityLevel.l4
      (by norm_num [levelIdx])).2.2⟩
